import Mathlib

/-!
Verification of the database backup/restore subsystem of Steel-Sync
(`src-tauri/src/main.rs` and `src-tauri/src/windows_support.rs`).

The filesystem is modelled as a map from path strings to optional file
contents (byte lists).  Each fallible OS primitive (`std::fs::rename`,
`std::fs::copy`, `std::fs::remove_file`, `std::fs::write`) either succeeds,
applying its whole-file effect atomically, or fails leaving the filesystem
unchanged; whether a given call succeeds is decided by an environment of
booleans (one per call site / retry attempt), standing for transient OS
conditions such as antivirus locks.  Every operation returns, besides its
`Result`, the final filesystem, the list of filesystem states observable
after each primitive call (the trace), and the list of sleeps (in
milliseconds) it performed between retry attempts.
-/

deriving instance DecidableEq for Except

namespace SteelSync

/-- File contents: a list of bytes. -/
abbrev Content := List Nat

/-- A filesystem: each path holds either a file's content or nothing. -/
abbrev FS := String → Option Content

/-- Effect of a successful `std::fs::write`. -/
def fsWrite (p : String) (c : Content) (fs : FS) : FS :=
  fun q => if q = p then some c else fs q

/-- Effect of a successful `std::fs::remove_file`. -/
def fsRemove (p : String) (fs : FS) : FS :=
  fun q => if q = p then none else fs q

/-- Effect of a successful `std::fs::rename` (moves `src` onto `dst`). -/
def fsRename (src dst : String) (fs : FS) : FS :=
  fun q => if q = dst then fs src else if q = src then none else fs q

/-- Effect of a successful `std::fs::copy` (`src` stays in place). -/
def fsCopy (src dst : String) (fs : FS) : FS :=
  fun q => if q = dst then fs src else fs q

/-- A `std::fs::rename` call: succeeds iff the environment permits it and the
source exists; on failure the filesystem is unchanged. -/
def fsRenameOp (ok : Bool) (src dst : String) (fs : FS) : Option FS :=
  if ok && (fs src).isSome then some (fsRename src dst fs) else none

/-- A `std::fs::copy` call. -/
def fsCopyOp (ok : Bool) (src dst : String) (fs : FS) : Option FS :=
  if ok && (fs src).isSome then some (fsCopy src dst fs) else none

/-- A `std::fs::remove_file` call. -/
def fsRemoveOp (ok : Bool) (p : String) (fs : FS) : Option FS :=
  if ok && (fs p).isSome then some (fsRemove p fs) else none


/-! ### Fixed paths

All paths used by the backup subsystem live in the resolved application data
directory; the common directory prefix is elided and only the file names
fixed by the source are kept. -/

/-- `db_dir.join("store.db")` (main.rs line 199). -/
def dbPath : String := "store.db"

/-- `db_dir.join("store.db.restore.tmp")` (main.rs line 200). -/
def tempPath : String := "store.db.restore.tmp"

/-- `db_dir.join("store.db.backup.tmp")` (main.rs line 201). -/
def backupPath : String := "store.db.backup.tmp"

/-- `app_data_dir.join("store.db.pre-restore-backup")` (main.rs line 358). -/
def preRestorePath : String := "store.db.pre-restore-backup"

/-! ### `windows_safe_file_replace` (windows_support.rs, lines 122-188) -/

/-- Outcomes of the Rust primitives inside `windows_safe_file_replace`:
one boolean per fallible call site (attempt-indexed for the retry loop). -/
structure WinEnv where
  /-- `fs::copy(target, backup_target)` (line 132). -/
  backupCopyOk : Bool
  /-- `fs::rename(source, target)`, strategy 1 (line 140). -/
  renameOk : Bool
  /-- `fs::copy(source, target)`, strategy 2 (line 148). -/
  copyOk : Bool
  /-- `fs::remove_file(source)` attempt 1 (line 153). -/
  removeSrc1 : Bool
  /-- `fs::remove_file(source)` attempt 2. -/
  removeSrc2 : Bool
  /-- `fs::remove_file(source)` attempt 3. -/
  removeSrc3 : Bool
  /-- `fs::copy(backup_target, target)` in the restore branch (line 183);
  that branch is unreachable, see `windows_safe_file_replace`. -/
  restoreCopyOk : Bool

/-- Error values of `windows_safe_file_replace`, one per `Err` message. -/
inductive WinErr
  /-- "Failed to create backup: {e}" (line 133). -/
  | backupFailed
  /-- "Failed to copy file: {e}" (line 172). -/
  | copyFailed
  /-- "File replacement failed after all attempts" (line 186). -/
  | allAttemptsFailed
  deriving DecidableEq, Repr

/-- Result of one operation of the subsystem: the returned `Result`, the final
filesystem, the filesystem states observable after each primitive call, and
the sleeps performed (milliseconds, in order). -/
structure Run (ε : Type) where
  res : Except ε Unit
  fs : FS
  trace : List FS
  sleeps : List Nat

/-- Result of one bounded retry loop. -/
structure Loop where
  success : Bool
  fs : FS
  trace : List FS
  sleeps : List Nat

/-- The `for attempt in 1..=3` loop removing the already-copied source file
(windows_support.rs lines 152-169).  A failing attempt sleeps a constant
500 ms unless it is the last; on the last failing attempt the code sets
`success = true` anyway ("Source file cleanup failed, but replacement
succeeded"). -/
def winRemoveSrcLoop (e : WinEnv) (source : String) (fs : FS) : Loop :=
  match fsRemoveOp e.removeSrc1 source fs with
  | some f => ⟨true, f, [f], []⟩
  | none =>
    match fsRemoveOp e.removeSrc2 source fs with
    | some f => ⟨true, f, [fs, f], [500]⟩
    | none =>
      match fsRemoveOp e.removeSrc3 source fs with
      | some f => ⟨true, f, [fs, fs, f], [500, 500]⟩
      | none => ⟨true, fs, [fs, fs, fs], [500, 500]⟩

/-- The two swap strategies of `windows_safe_file_replace` (lines 136-175):
strategy 1 is a direct `fs::rename(source, target)`; if it fails, strategy 2
copies `source` over `target` and then tries to delete `source` (up to three
attempts).  A failing `fs::copy` returns the error directly (line 172);
every other path sets `success = true`. -/
def wsfrStrategies (e : WinEnv) (source target : String) (fs : FS) :
    Except WinErr Loop :=
  match fsRenameOp e.renameOk source target fs with
  | some f => .ok ⟨true, f, [f], []⟩
  | none =>
    match fsCopyOp e.copyOk source target fs with
    | some f =>
      let l := winRemoveSrcLoop e source f
      .ok ⟨l.success, l.fs, fs :: f :: l.trace, l.sleeps⟩
    | none => .error .copyFailed

/-- `windows_safe_file_replace(source, target, backup_target)`
(windows_support.rs lines 122-188).  Step 1 copies `target` to
`backup_target` when `target` exists (a failure aborts).  Step 2 runs the two
swap strategies.  The final `if success .. else ..` restore branch (lines
177-187) is kept although no reachable strategy outcome leaves
`success = false`: the copy-failure path returns early and the cleanup loop
forces `success = true` on its last attempt. -/
def windows_safe_file_replace (e : WinEnv) (source target backupT : String)
    (fs : FS) : Run WinErr :=
  match fs target with
  | some _ =>
    match fsCopyOp e.backupCopyOk target backupT fs with
    | none => ⟨.error .backupFailed, fs, [fs, fs], []⟩
    | some fs1 =>
      match wsfrStrategies e source target fs1 with
      | .error err => ⟨.error err, fs1, [fs, fs1, fs1], []⟩
      | .ok l =>
        if l.success then ⟨.ok (), l.fs, fs :: fs1 :: l.trace, l.sleeps⟩
        else
          let f2 := if (l.fs backupT).isSome && e.restoreCopyOk then
              fsCopy backupT target l.fs else l.fs
          ⟨.error .allAttemptsFailed, f2, fs :: fs1 :: l.trace ++ [f2], l.sleeps⟩
  | none =>
    match wsfrStrategies e source target fs with
    | .error err => ⟨.error err, fs, [fs, fs], []⟩
    | .ok l =>
      if l.success then ⟨.ok (), l.fs, fs :: l.trace, l.sleeps⟩
      else
        let f2 := if (l.fs backupT).isSome && e.restoreCopyOk then
            fsCopy backupT target l.fs else l.fs
        ⟨.error .allAttemptsFailed, f2, fs :: l.trace ++ [f2], l.sleeps⟩

/-! ### `atomic_database_replace` (main.rs, lines 182-321) -/

/-- Outcomes of the Rust primitives inside `atomic_database_replace`. -/
structure AtomicEnv where
  /-- `cfg!(target_os = "windows")` (line 213). -/
  isWindows : Bool
  /-- `std::fs::write(&temp_path, &backup_data)` (line 207). -/
  writeTempOk : Bool
  /-- Primitive outcomes inside `windows_safe_file_replace` (line 217). -/
  win : WinEnv
  /-- Best-effort `remove_file(&backup_path)` for a stale backup (line 234). -/
  removeOldBackupOk : Bool
  /-- `fs::rename(&db_path, &backup_path)` attempt 1 (line 242). -/
  renBak1 : Bool
  /-- `fs::rename(&db_path, &backup_path)` attempt 2. -/
  renBak2 : Bool
  /-- `fs::rename(&db_path, &backup_path)` attempt 3. -/
  renBak3 : Bool
  /-- `std::fs::copy(&db_path, &backup_path)` (line 262). -/
  copyBakOk : Bool
  /-- `std::fs::remove_file(&db_path)` attempt 1 (line 267). -/
  removeDb1 : Bool
  /-- `std::fs::remove_file(&db_path)` attempt 2. -/
  removeDb2 : Bool
  /-- `std::fs::remove_file(&db_path)` attempt 3. -/
  removeDb3 : Bool
  /-- `std::fs::remove_file(&db_path)` attempt 4. -/
  removeDb4 : Bool
  /-- `std::fs::remove_file(&db_path)` attempt 5. -/
  removeDb5 : Bool
  /-- `std::fs::rename(&temp_path, &db_path)` attempt 1 (line 292). -/
  finalRen1 : Bool
  /-- `std::fs::rename(&temp_path, &db_path)` attempt 2. -/
  finalRen2 : Bool
  /-- `std::fs::rename(&temp_path, &db_path)` attempt 3. -/
  finalRen3 : Bool
  /-- `std::fs::rename(&temp_path, &db_path)` attempt 4. -/
  finalRen4 : Bool
  /-- `std::fs::rename(&temp_path, &db_path)` attempt 5. -/
  finalRen5 : Bool
  /-- Best-effort `remove_file(&backup_path)` after success (line 298). -/
  cleanupBakOk : Bool
  /-- Best-effort `fs::rename(&backup_path, &db_path)` restore (line 311). -/
  restoreRenOk : Bool

/-- Error values of `atomic_database_replace`, one per `Err` message. -/
inductive ReplaceErr
  /-- "Failed to write temporary file: {e}" (line 208). -/
  | writeTempFailed
  /-- "Production file replacement failed: {e}" (line 223). -/
  | productionReplaceFailed (e : WinErr)
  /-- "Failed to backup current database: {e}" (line 263). -/
  | backupCopyFailed
  /-- "Could not remove the existing database file after multiple attempts"
  (line 284). -/
  | removeOldFailed
  /-- "Failed to move temporary file after {attempt} attempts: {e}"
  (line 314). -/
  | moveTempFailed (attempts : Nat)
  /-- "Unexpected error in database replacement" (line 320; unreachable,
  the fifth loop iteration always returns). -/
  | unexpected
  deriving DecidableEq, Repr

/-- Strategy 1 of the fallback replacement: `for attempt in 1..=3` renaming
`db_path` to `backup_path` (main.rs lines 241-255), sleeping
`500 ms * attempt` after each failed attempt except the last. -/
def renameDbLoop (e : AtomicEnv) (fs : FS) : Loop :=
  match fsRenameOp e.renBak1 dbPath backupPath fs with
  | some f => ⟨true, f, [f], []⟩
  | none =>
    match fsRenameOp e.renBak2 dbPath backupPath fs with
    | some f => ⟨true, f, [fs, f], [500]⟩
    | none =>
      match fsRenameOp e.renBak3 dbPath backupPath fs with
      | some f => ⟨true, f, [fs, fs, f], [500, 1000]⟩
      | none => ⟨false, fs, [fs, fs, fs], [500, 1000]⟩

/-- Strategy 2's deletion: `for attempt in 1..=5` removing `db_path`
(main.rs lines 266-280), sleeping `1000 ms * attempt` after each failed
attempt except the last. -/
def removeDbLoop (e : AtomicEnv) (fs : FS) : Loop :=
  match fsRemoveOp e.removeDb1 dbPath fs with
  | some f => ⟨true, f, [f], []⟩
  | none =>
    match fsRemoveOp e.removeDb2 dbPath fs with
    | some f => ⟨true, f, [fs, f], [1000]⟩
    | none =>
      match fsRemoveOp e.removeDb3 dbPath fs with
      | some f => ⟨true, f, [fs, fs, f], [1000, 2000]⟩
      | none =>
        match fsRemoveOp e.removeDb4 dbPath fs with
        | some f => ⟨true, f, [fs, fs, fs, f], [1000, 2000, 3000]⟩
        | none =>
          match fsRemoveOp e.removeDb5 dbPath fs with
          | some f => ⟨true, f, [fs, fs, fs, fs, f], [1000, 2000, 3000, 4000]⟩
          | none => ⟨false, fs, [fs, fs, fs, fs, fs], [1000, 2000, 3000, 4000]⟩

/-- Step 3: `for attempt in 1..=5` renaming `temp_path` to `db_path`
(main.rs lines 291-318), sleeping `1000 ms * attempt` after each failed
attempt except the last.  Returns `some` of the new filesystem on the first
successful attempt. -/
def finalRenameLoop (e : AtomicEnv) (fs : FS) : Option FS × List FS × List Nat :=
  match fsRenameOp e.finalRen1 tempPath dbPath fs with
  | some f => (some f, [f], [])
  | none =>
    match fsRenameOp e.finalRen2 tempPath dbPath fs with
    | some f => (some f, [fs, f], [1000])
    | none =>
      match fsRenameOp e.finalRen3 tempPath dbPath fs with
      | some f => (some f, [fs, fs, f], [1000, 2000])
      | none =>
        match fsRenameOp e.finalRen4 tempPath dbPath fs with
        | some f => (some f, [fs, fs, fs, f], [1000, 2000, 3000])
        | none =>
          match fsRenameOp e.finalRen5 tempPath dbPath fs with
          | some f => (some f, [fs, fs, fs, fs, f], [1000, 2000, 3000, 4000])
          | none => (none, [fs, fs, fs, fs, fs], [1000, 2000, 3000, 4000])

/-- Step 3 of `atomic_database_replace` together with its success cleanup and
failure restore (main.rs lines 288-321).  On success the backup file is
removed best-effort (lines 297-300); after the fifth failed attempt the
backup, if present, is renamed back onto `db_path` best-effort (lines
309-313) and the error is surfaced.  `tr` and `sl` are the trace and sleeps
accumulated by the caller before this step. -/
def replaceFinish (e : AtomicEnv) (fs : FS) (tr : List FS) (sl : List Nat) :
    Run ReplaceErr :=
  match finalRenameLoop e fs with
  | (some f, tr2, sl2) =>
    let f2 := if (f backupPath).isSome && e.cleanupBakOk then
        fsRemove backupPath f else f
    ⟨.ok (), f2, tr ++ tr2 ++ [f2], sl ++ sl2⟩
  | (none, tr2, sl2) =>
    let f2 := if (fs backupPath).isSome && e.restoreRenOk then
        fsRename backupPath dbPath fs else fs
    ⟨.error (.moveTempFailed 5), f2, tr ++ tr2 ++ [f2], sl ++ sl2⟩

/-- `atomic_database_replace(backup_data)` (main.rs lines 182-321).
Step 1 writes the new data to `temp_path`.  Step 2, on Windows with an
existing target, delegates to `windows_safe_file_replace` and returns its
outcome.  Otherwise the fallback runs: if the target exists, a stale backup
is removed best-effort, then strategy 1 renames the target away (3 attempts)
and, failing that, strategy 2 copies the target to the backup path and
removes the target (5 attempts); both strategies failing aborts.  Step 3
renames the temp file into place (`replaceFinish`). -/
def atomic_database_replace (e : AtomicEnv) (data : Content) (fs : FS) :
    Run ReplaceErr :=
  if ¬ e.writeTempOk then ⟨.error .writeTempFailed, fs, [fs, fs], []⟩ else
  let fs1 := fsWrite tempPath data fs
  if e.isWindows && (fs1 dbPath).isSome then
    let w := windows_safe_file_replace e.win tempPath dbPath backupPath fs1
    match w.res with
    | .ok _ => ⟨.ok (), w.fs, fs :: w.trace, w.sleeps⟩
    | .error err => ⟨.error (.productionReplaceFailed err), w.fs, fs :: w.trace, w.sleeps⟩
  else
    match fs1 dbPath with
    | none => replaceFinish e fs1 [fs, fs1] []
    | some _ =>
      let fs2 := if (fs1 backupPath).isSome && e.removeOldBackupOk then
          fsRemove backupPath fs1 else fs1
      let l1 := renameDbLoop e fs2
      if l1.success then
        replaceFinish e l1.fs ([fs, fs1, fs2] ++ l1.trace) l1.sleeps
      else
        match fsCopyOp e.copyBakOk dbPath backupPath l1.fs with
        | none =>
          ⟨.error .backupCopyFailed, l1.fs,
            [fs, fs1, fs2] ++ l1.trace ++ [l1.fs], l1.sleeps⟩
        | some fs3 =>
          let l2 := removeDbLoop e fs3
          if l2.success then
            replaceFinish e l2.fs ([fs, fs1, fs2] ++ l1.trace ++ [fs3] ++ l2.trace)
              (l1.sleeps ++ l2.sleeps)
          else
            ⟨.error .removeOldFailed, l2.fs,
              [fs, fs1, fs2] ++ l1.trace ++ [fs3] ++ l2.trace,
              l1.sleeps ++ l2.sleeps⟩

/-! ### `startup_database_restore` (main.rs, lines 340-370) -/

/-- Outcomes of the primitives inside `startup_database_restore`. -/
structure StartupEnv where
  /-- `std::fs::copy(&db_path, &backup_path)` (line 359). -/
  safetyCopyOk : Bool
  /-- `std::fs::write(&db_path, backup_data)` (line 365). -/
  writeOk : Bool

/-- Error values of `startup_database_restore`. -/
inductive StartupErr
  /-- "Failed to create safety backup: {e}" (line 360). -/
  | safetyBackupFailed
  /-- "Failed to write restored database: {e}" (line 366). -/
  | writeFailed
  deriving DecidableEq, Repr

/-- `startup_database_restore(backup_data)` (main.rs lines 340-370).  When a
database file already exists it is first copied to the fixed sibling name
`store.db.pre-restore-backup`; then the supplied bytes are written directly
onto `db_path` with `std::fs::write`. -/
def startup_database_restore (e : StartupEnv) (data : Content) (fs : FS) :
    Run StartupErr :=
  match fs dbPath with
  | some _ =>
    match fsCopyOp e.safetyCopyOk dbPath preRestorePath fs with
    | none => ⟨.error .safetyBackupFailed, fs, [fs, fs], []⟩
    | some fs1 =>
      if e.writeOk then
        ⟨.ok (), fsWrite dbPath data fs1, [fs, fs1, fsWrite dbPath data fs1], []⟩
      else ⟨.error .writeFailed, fs1, [fs, fs1, fs1], []⟩
  | none =>
    if e.writeOk then
      ⟨.ok (), fsWrite dbPath data fs, [fs, fsWrite dbPath data fs], []⟩
    else ⟨.error .writeFailed, fs, [fs, fs], []⟩

/-! ### `calculate_fast_checksum` (main.rs, lines 471-506)

The function opens the file, hashes the 8-byte little-endian file size, the
first `min(65536, size)` bytes, and, when the size exceeds 131072 bytes, the
last 65536 bytes (seeking from the end), and returns the SHA-256 digest of
that stream.  The SHA-256 compression itself is kept abstract: the model
computes the exact byte sequence fed to the hasher, and operations that
return the digest take the digest function as a parameter. -/

/-- `u64::to_le_bytes` of the file size (main.rs line 486). -/
def toLE8 (n : Nat) : List Nat :=
  [n % 256, n / 256 % 256, n / 256 ^ 2 % 256, n / 256 ^ 3 % 256,
   n / 256 ^ 4 % 256, n / 256 ^ 5 % 256, n / 256 ^ 6 % 256, n / 256 ^ 7 % 256]

/-- The exact byte sequence fed to the SHA-256 hasher by
`calculate_fast_checksum` for a file with content `file`: the 8-byte
little-endian size, the first `min(65536, size)` bytes (line 489), and,
when `size > 131072`, the 65536 bytes starting at `size - 65536`
(lines 496-502). -/
def calculate_fast_checksum_input (file : Content) : List Nat :=
  let fileSize := file.length
  let bufferSize := min 65536 fileSize
  toLE8 fileSize ++ file.take bufferSize ++
    (if 131072 < fileSize then file.drop (fileSize - 65536) else [])

/-- `calculate_fast_checksum`, parametric in the SHA-256 digest function. -/
def calculate_fast_checksum (sha256 : List Nat → List Nat) (file : Content) :
    List Nat :=
  sha256 (calculate_fast_checksum_input file)

/-- The hashed stream as the specification words it: "hash the 8-byte
little-endian file size, then the first 64 KiB of the file; if the file
exceeds 128 KiB, also hash the last 64 KiB (seeking from end-of-file)". -/
def fast_checksum_input_spec (file : Content) : List Nat :=
  toLE8 file.length ++ file.take 65536 ++
    (if 131072 < file.length then file.drop (file.length - 65536) else [])

/-! ### `create_consistent_backup` (main.rs, lines 372-462) -/

/-- Outcomes of the fallible steps of `create_consistent_backup`. -/
structure SnapEnv where
  /-- `Connection::open(&db_path)` (line 399). -/
  openOk : Bool
  /-- `conn.busy_timeout(10s)` (line 403). -/
  busyTimeoutOk : Bool
  /-- `PRAGMA wal_checkpoint(RESTART)` (line 408); its failure is logged and
  the operation continues. -/
  checkpointOk : Bool
  /-- `Connection::open(&backup_path)` (line 419). -/
  openBackupOk : Bool
  /-- `rusqlite::backup::Backup::new` (line 423). -/
  backupInitOk : Bool
  /-- `backup.run_to_completion(100, 10ms, None)` (line 428). -/
  backupRunOk : Bool
  /-- `std::fs::metadata(&backup_path)` (line 439). -/
  metadataOk : Bool
  /-- `calculate_fast_checksum(&backup_path)` (line 451). -/
  checksumReadOk : Bool

/-- Error values of `create_consistent_backup`, one per `Err` message. -/
inductive SnapErr
  /-- "Database file not found" (line 393). -/
  | sourceMissing
  /-- "Failed to open database: {e}" (line 400). -/
  | openFailed
  /-- "Failed to set busy timeout: {e}" (line 404). -/
  | busyTimeoutFailed
  /-- "Failed to create backup file: {e}" (line 420). -/
  | createBackupFailed
  /-- "Failed to initialize backup: {e}" (line 424). -/
  | initBackupFailed
  /-- "Backup failed: {e}" (line 434). -/
  | backupRunFailed
  /-- "Failed to read backup metadata: {e}" (line 440). -/
  | metadataFailed
  /-- "Backup file is too small, likely corrupted" (line 446). -/
  | tooSmall
  /-- Failure propagated out of `calculate_fast_checksum`. -/
  | checksumFailed
  deriving DecidableEq, Repr

/-- The steps of `create_consistent_backup` that have externally observable
effects, recorded in execution order. -/
inductive SnapStep
  /-- The `wal_checkpoint(RESTART)` was issued (line 408). -/
  | checkpointAttempted
  /-- The SQLite backup-API copy ran (line 428). -/
  | backupCopyRun
  /-- The destination file was statted (line 439). -/
  | destStatted
  /-- The fast checksum was computed (line 451). -/
  | checksumComputed
  deriving DecidableEq, Repr

/-- The JSON value returned on success (main.rs lines 457-461); the
`checksum` field carries the digest input, see `calculate_fast_checksum`. -/
structure SnapResult where
  success : Bool
  size : Nat
  checksum : List Nat
  deriving DecidableEq, Repr

/-- `create_consistent_backup(backup_file_name)` (main.rs lines 372-462).
`dbExists` is whether `db_path` exists; `dest` is the content the SQLite
backup API materialises at the destination on a successful run.  The WAL
checkpoint outcome is logged but never aborts (lines 408-413); a destination
below 1024 bytes aborts with the too-small error (lines 445-447). -/
def create_consistent_backup (e : SnapEnv) (dbExists : Bool) (dest : Content) :
    Except SnapErr SnapResult × List SnapStep :=
  if ¬ dbExists then (.error .sourceMissing, []) else
  if ¬ e.openOk then (.error .openFailed, []) else
  if ¬ e.busyTimeoutOk then (.error .busyTimeoutFailed, []) else
  -- `PRAGMA wal_checkpoint(RESTART)`: both arms only print (lines 409-412)
  if ¬ e.openBackupOk then (.error .createBackupFailed, [.checkpointAttempted]) else
  if ¬ e.backupInitOk then (.error .initBackupFailed, [.checkpointAttempted]) else
  if ¬ e.backupRunOk then
    (.error .backupRunFailed, [.checkpointAttempted, .backupCopyRun]) else
  if ¬ e.metadataOk then
    (.error .metadataFailed, [.checkpointAttempted, .backupCopyRun]) else
  if dest.length < 1024 then
    (.error .tooSmall, [.checkpointAttempted, .backupCopyRun, .destStatted]) else
  if ¬ e.checksumReadOk then
    (.error .checksumFailed, [.checkpointAttempted, .backupCopyRun, .destStatted]) else
  (.ok ⟨true, dest.length, calculate_fast_checksum_input dest⟩,
    [.checkpointAttempted, .backupCopyRun, .destStatted, .checksumComputed])

/-! ### `close_database_connections` (main.rs, lines 102-180) -/

/-- Outcomes of the steps of `close_database_connections`. -/
structure CloseEnv where
  /-- The `APPDATA`/`HOME` environment variable resolves (lines 114-121). -/
  appDataAvailable : Bool
  /-- `db_path.exists()` (line 126). -/
  dbExists : Bool
  /-- `Connection::open(&db_path)` (line 130). -/
  connOpenOk : Bool
  /-- `BEGIN IMMEDIATE; COMMIT;` (line 133). -/
  commitOk : Bool
  /-- `PRAGMA wal_checkpoint(TRUNCATE)` (line 141). -/
  cpTruncateOk : Bool
  /-- `PRAGMA wal_checkpoint(RESTART)` (line 148). -/
  cpRestartOk : Bool
  /-- `PRAGMA vacuum` (line 154). -/
  vacuumOk : Bool
  /-- `PRAGMA wal_checkpoint(FULL)` (line 160). -/
  cpFullOk : Bool

/-- The log lines of `close_database_connections` that depend on step
outcomes, recording which arm of each `match` ran. -/
inductive CloseMsg
  | commitDone | commitFailed
  | truncateDone | truncateFailed
  | restartDone | restartFailed
  | vacuumDone | vacuumFailed
  | fullDone | fullFailed
  | connClosed | couldNotOpen
  deriving DecidableEq, Repr

/-- `close_database_connections()` (main.rs lines 102-180).  After the
environment variable resolves, every checkpoint strategy only logs its
outcome (lines 133-163) and the function returns `Ok(())`; sleeps of 100 ms
(line 147) and 500 ms (line 176) are performed on the way. -/
def close_database_connections (e : CloseEnv) :
    Except String Unit × List CloseMsg × List Nat :=
  if ¬ e.appDataAvailable then
    (.error "Failed to get APPDATA directory", [], [])
  else if e.dbExists then
    if e.connOpenOk then
      ((.ok ()),
       [if e.commitOk then .commitDone else .commitFailed,
        if e.cpTruncateOk then .truncateDone else .truncateFailed,
        if e.cpRestartOk then .restartDone else .restartFailed,
        if e.vacuumOk then .vacuumDone else .vacuumFailed,
        if e.cpFullOk then .fullDone else .fullFailed,
        .connClosed],
       [100, 500])
    else ((.ok ()), [.couldNotOpen], [500])
  else ((.ok ()), [], [500])

/-! ### `get_windows_app_data_dir` (windows_support.rs, lines 13-76) -/

/-- Outcome of `ensure_directory_writable` at a given path: creation of the
directory can fail (line 63) or the write probe can fail (line 74), each
with an underlying OS error, here abstracted as a numeric code. -/
inductive ProbeOutcome
  | ok
  | createFail (e : Nat)
  | writeFail (e : Nat)
  deriving DecidableEq, Repr

/-- The error messages produced by the directory resolver, mirroring the
distinct `format!` strings of the source. -/
inductive DirMsg
  /-- "Cannot create directory: {e}" (line 64). -/
  | cannotCreate (e : Nat)
  /-- "Directory not writable: {e}" (line 74). -/
  | notWritable (e : Nat)
  /-- "Could not find a writable directory on this Windows system"
  (line 56): a fixed string carrying no OS error. -/
  | noWritableDir
  deriving DecidableEq, Repr

/-- The environment seen by `get_windows_app_data_dir`: the five candidate
roots (an env var can be unset) and the writability probe outcome at each
candidate directory. -/
structure DirEnv where
  appdata : Option String
  localappdata : Option String
  userprofile : Option String
  temp : Option String
  currentDir : Option String
  probe : String → ProbeOutcome

/-- `ensure_directory_writable(path)` (windows_support.rs lines 60-76). -/
def ensure_directory_writable (env : DirEnv) (path : String) :
    Except DirMsg Unit :=
  match env.probe path with
  | .ok => .ok ()
  | .createFail e => .error (.cannotCreate e)
  | .writeFail e => .error (.notWritable e)

/-- Strategy 5: current directory joined with `data` and the app name
(windows_support.rs lines 49-54), then the fixed failure (line 56). -/
def appDataStrategy5 (env : DirEnv) (appName : String) : Except DirMsg String :=
  match env.currentDir with
  | some c =>
    let p := c ++ "/data/" ++ appName
    if (ensure_directory_writable env p).isOk then .ok p
    else .error .noWritableDir
  | none => .error .noWritableDir

/-- Strategy 4: `TEMP` (windows_support.rs lines 41-46). -/
def appDataStrategy4 (env : DirEnv) (appName : String) : Except DirMsg String :=
  match env.temp with
  | some r =>
    let p := r ++ "/" ++ appName
    if (ensure_directory_writable env p).isOk then .ok p
    else appDataStrategy5 env appName
  | none => appDataStrategy5 env appName

/-- Strategy 3: `USERPROFILE\Documents` (windows_support.rs lines 33-38). -/
def appDataStrategy3 (env : DirEnv) (appName : String) : Except DirMsg String :=
  match env.userprofile with
  | some r =>
    let p := r ++ "/Documents/" ++ appName
    if (ensure_directory_writable env p).isOk then .ok p
    else appDataStrategy4 env appName
  | none => appDataStrategy4 env appName

/-- Strategy 2: `LOCALAPPDATA` (windows_support.rs lines 25-30). -/
def appDataStrategy2 (env : DirEnv) (appName : String) : Except DirMsg String :=
  match env.localappdata with
  | some r =>
    let p := r ++ "/" ++ appName
    if (ensure_directory_writable env p).isOk then .ok p
    else appDataStrategy3 env appName
  | none => appDataStrategy3 env appName

/-- `get_windows_app_data_dir(app_name)` (windows_support.rs lines 13-57):
strategy 1 is `APPDATA`, then strategies 2-5 in order; each candidate is the
root joined with the app name and is accepted iff
`ensure_directory_writable` succeeds on it. -/
def get_windows_app_data_dir (env : DirEnv) (appName : String) :
    Except DirMsg String :=
  match env.appdata with
  | some r =>
    let p := r ++ "/" ++ appName
    if (ensure_directory_writable env p).isOk then .ok p
    else appDataStrategy2 env appName
  | none => appDataStrategy2 env appName

/-- The candidate list in the resolver's fixed priority order, as the
specification words it: primary app-data root, secondary app-data root,
user-documents dir, temp dir, current-working-directory-based dir, each
joined with the application name. -/
def dirCandidates (env : DirEnv) (appName : String) : List String :=
  (env.appdata.map (fun r => r ++ "/" ++ appName)).toList ++
  (env.localappdata.map (fun r => r ++ "/" ++ appName)).toList ++
  (env.userprofile.map (fun r => r ++ "/Documents/" ++ appName)).toList ++
  (env.temp.map (fun r => r ++ "/" ++ appName)).toList ++
  (env.currentDir.map (fun r => r ++ "/data/" ++ appName)).toList

/-! ### `cleanup_restore_file` (main.rs, lines 677-765) -/

/-- Outcome of a `std::fs::remove_file` call in the forced-delete ladder.
On Windows a successful `DeleteFile` can leave the name present until the
last open handle closes (delete-pending), which is exactly the situation
the verification re-stat guards against; `okPending` models a call that
returns `Ok` while the path remains present. -/
inductive RmOutcome
  | okGone
  | okPending
  | err
  deriving DecidableEq, Repr

/-- Apply an `RmOutcome`: the returned boolean is whether the call reported
success. -/
def rmOp : RmOutcome → String → FS → Bool × FS
  | .okGone, p, fs => (true, fsRemove p fs)
  | .okPending, _, fs => (true, fs)
  | .err, _, fs => (false, fs)

/-- Outcomes of the primitives inside `cleanup_restore_file`. -/
structure CleanupEnv where
  /-- `cfg!(target_os = "windows")`: strategy 2 is Windows-only (line 703). -/
  isWindows : Bool
  /-- `std::fs::remove_file(&file_path)`, strategy 1 (line 699). -/
  directRemove : RmOutcome
  /-- The `cmd /C del /F /Q` child process reports exit success (line 720). -/
  delClaims : Bool
  /-- The `del` command actually removed the file. -/
  delEffective : Bool
  /-- `std::fs::rename(&file_path, &temp_path)`, strategy 3 (line 737). -/
  renameOk : Bool
  /-- `std::fs::remove_file(&temp_path)`, strategy 3 (line 739). -/
  removeRenamed : RmOutcome

/-- Error values of `cleanup_restore_file`. -/
inductive CleanupErr
  /-- "Failed to delete file: {e}" (line 747). -/
  | deleteFailed
  /-- "File still exists after deletion attempt" (line 756). -/
  | stillExistsAfterDeletion
  deriving DecidableEq, Repr

/-- The prefix of a character list before its last dot, or `none` when it
contains no dot. -/
def stemBeforeLastDot : List Char → Option (List Char)
  | [] => none
  | c :: rest =>
    match stemBeforeLastDot rest with
    | some s => some (c :: s)
    | none => if c = Char.ofNat 46 then some [] else none

/-- `Path::with_extension(ext)` on a bare file name (no directory part):
the text after the last dot is replaced by `ext`; a name without a dot gets
`ext` appended after a dot. -/
def withExtension (p ext : String) : String :=
  match stemBeforeLastDot p.toList with
  | some stem => String.mk stem ++ "." ++ ext
  | none => p ++ "." ++ ext

/-- The verification re-stat of `cleanup_restore_file` (main.rs lines
754-757): an `Ok` is returned only if the original path is now absent. -/
def cleanupVerify (p : String) (fs : FS) : Except CleanupErr Unit × FS :=
  if (fs p).isSome then (.error .stillExistsAfterDeletion, fs) else (.ok (), fs)

/-- `cleanup_restore_file(relative_path)` (main.rs lines 677-765).  If the
file exists: strategy 1 is a direct delete; on its failure, strategy 2
(Windows only) shells out to `del /F /Q`, and strategy 3 renames the file to
`with_extension("tmp_delete")` and deletes the renamed file.  If no strategy
reported success the original delete error is returned; otherwise the path
is re-statted and continued existence is an error. -/
def cleanup_restore_file (e : CleanupEnv) (p : String) (fs : FS) :
    Except CleanupErr Unit × FS :=
  if (fs p).isSome then
    match rmOp e.directRemove p fs with
    | (true, fs1) => cleanupVerify p fs1
    | (false, _) =>
      -- strategy 2: `cmd /C del /F /Q` (lines 713-731), Windows only
      let delSuccess := e.isWindows && e.delClaims
      let fs2 := if delSuccess && e.delEffective then fsRemove p fs else fs
      if delSuccess then cleanupVerify p fs2
      else
        -- strategy 3: rename then delete (lines 735-744)
        match fsRenameOp e.renameOk p (withExtension p "tmp_delete") fs2 with
        | some fs3 =>
          match rmOp e.removeRenamed (withExtension p "tmp_delete") fs3 with
          | (true, fs4) => cleanupVerify p fs4
          | (false, fs4) => (.error .deleteFailed, fs4)
        | none => (.error .deleteFailed, fs2)
  else (.ok (), fs)

/-- The acceptance test of the resolver: the candidate's directory can be
created and passes the write probe. -/
def probeAccepts (env : DirEnv) (p : String) : Bool :=
  (ensure_directory_writable env p).isOk

/-- The resolver as the specification words it: the first candidate of the
list accepted by the probe wins; with no acceptable candidate the resolution
fails with `NoWritableLocation`. -/
def resolveList (env : DirEnv) (l : List String) : Except DirMsg String :=
  match l.find? (probeAccepts env) with
  | some p => .ok p
  | none => .error .noWritableDir

/-- Whether the fallback's two vacate strategies free the target path;
whenever the target exists this is determined by the environment alone. -/
def vacateSucceeds (e : AtomicEnv) : Bool :=
  e.renBak1 || e.renBak2 || e.renBak3 ||
    (e.copyBakOk && (e.removeDb1 || e.removeDb2 || e.removeDb3 ||
      e.removeDb4 || e.removeDb5))

/-- A fully permissive primitive environment for `windows_safe_file_replace`. -/
def allOkWin : WinEnv :=
  { backupCopyOk := true, renameOk := true, copyOk := true,
    removeSrc1 := true, removeSrc2 := true, removeSrc3 := true,
    restoreCopyOk := true }

/-- A fully permissive primitive environment for `atomic_database_replace`
on the non-Windows fallback branch. -/
def allOkAtomic : AtomicEnv :=
  { isWindows := false, writeTempOk := true, win := allOkWin,
    removeOldBackupOk := true,
    renBak1 := true, renBak2 := true, renBak3 := true, copyBakOk := true,
    removeDb1 := true, removeDb2 := true, removeDb3 := true,
    removeDb4 := true, removeDb5 := true,
    finalRen1 := true, finalRen2 := true, finalRen3 := true,
    finalRen4 := true, finalRen5 := true,
    cleanupBakOk := true, restoreRenOk := true }

/-- The Windows-branch environment in which the direct rename is prevented,
the copy-over succeeds and every source-removal attempt fails. -/
def winCopyOverEnv : AtomicEnv :=
  { allOkAtomic with
      isWindows := true
      win := { allOkWin with
                 renameOk := false
                 removeSrc1 := false
                 removeSrc2 := false
                 removeSrc3 := false } }

/-! ### Helper lemmas -/

@[simp] theorem fsWrite_self (p : String) (c : Content) (fs : FS) :
    fsWrite p c fs p = some c := by simp [fsWrite]

@[simp] theorem fsWrite_other (p q : String) (c : Content) (fs : FS) (h : q ≠ p) :
    fsWrite p c fs q = fs q := by simp [fsWrite, h]

@[simp] theorem fsRemove_self (p : String) (fs : FS) : fsRemove p fs p = none := by
  simp [fsRemove]

@[simp] theorem fsRemove_other (p q : String) (fs : FS) (h : q ≠ p) :
    fsRemove p fs q = fs q := by simp [fsRemove, h]

@[simp] theorem fsRename_dst (src dst : String) (fs : FS) :
    fsRename src dst fs dst = fs src := by simp [fsRename]

theorem fsRename_src (src dst : String) (fs : FS) (h : src ≠ dst) :
    fsRename src dst fs src = none := by simp [fsRename, h]

theorem fsRename_other (src dst q : String) (fs : FS) (h1 : q ≠ dst) (h2 : q ≠ src) :
    fsRename src dst fs q = fs q := by simp [fsRename, h1, h2]

@[simp] theorem fsCopy_dst (src dst : String) (fs : FS) :
    fsCopy src dst fs dst = fs src := by simp [fsCopy]

theorem fsCopy_other (src dst q : String) (fs : FS) (h : q ≠ dst) :
    fsCopy src dst fs q = fs q := by simp [fsCopy, h]

theorem toLE8_length (n : Nat) : (toLE8 n).length = 8 := rfl

theorem take_set_of_le {α : Type} (l : List α) (i : Nat) (b : α) (n : Nat)
    (h : n ≤ i) : (l.set i b).take n = l.take n := by
  apply List.ext_getElem?
  intro j
  by_cases hj : j < n
  · rw [List.getElem?_take_of_lt hj, List.getElem?_take_of_lt hj,
      List.getElem?_set_ne (by omega)]
  · rw [List.getElem?_eq_none (by simp [List.length_take]; omega),
      List.getElem?_eq_none (by simp [List.length_take]; omega)]

theorem drop_set_of_lt {α : Type} (l : List α) (i : Nat) (b : α) (k : Nat)
    (h : i < k) : (l.set i b).drop k = l.drop k := by
  apply List.ext_getElem?
  intro j
  rw [List.getElem?_drop, List.getElem?_drop, List.getElem?_set_ne (by omega)]

/-- The code's hashed stream coincides with the stream as the specification
words it: `take (min 65536 N)` and `take 65536` agree. -/
theorem fast_input_eq_spec (f : Content) :
    calculate_fast_checksum_input f = fast_checksum_input_spec f := by
  show toLE8 f.length ++ f.take (min 65536 f.length) ++
      (if 131072 < f.length then f.drop (f.length - 65536) else []) =
    toLE8 f.length ++ f.take 65536 ++
      (if 131072 < f.length then f.drop (f.length - 65536) else [])
  rcases le_total 65536 f.length with h | h
  · rw [Nat.min_eq_left h]
  · rw [Nat.min_eq_right h, List.take_length, List.take_of_length_le h]

/-- The last byte of the hashed stream is the last byte of the file when the
trailer window is hashed. -/
theorem fast_input_last (f : Content) (h : 131072 < f.length) :
    (calculate_fast_checksum_input f)[131079]? = f[f.length - 1]? := by
  have hl : (toLE8 f.length ++ f.take 65536).length = 65544 := by
    simp only [List.length_append, toLE8_length, List.length_take]
    omega
  rw [fast_input_eq_spec]
  show (toLE8 f.length ++ f.take 65536 ++
      (if 131072 < f.length then f.drop (f.length - 65536) else []))[131079]? = _
  rw [if_pos h, List.getElem?_append_right (by rw [hl]; omega), hl,
    List.getElem?_drop]
  congr 1
  omega

/-! ### Claim C4 -/

/-- Claim C4: for every file of size N the fast checksum equals the SHA-256
digest of the 8-byte little-endian encoding of N, followed by the first
min(N, 65536) bytes, followed by the last 65536 bytes iff N > 131072 (first
conjunct, against the stream as the specification words it); for
1 ≤ N ≤ 131072 the checksum covers exactly 8 + min(N, 65536) logical bytes
(second conjunct); for N > 131072 changing only the last byte changes the
checksum, for any injective digest (third conjunct); and changing only a
byte outside the first and last 64 KiB windows does not change the checksum
(fourth conjunct). -/
theorem C4_fast_checksum_windows (sha : List Nat → List Nat) (file : Content) :
    calculate_fast_checksum sha file = sha (fast_checksum_input_spec file)
    ∧ (1 ≤ file.length → file.length ≤ 131072 →
        (calculate_fast_checksum_input file).length = 8 + min file.length 65536)
    ∧ (∀ b, 131072 < file.length → b ≠ file.getD (file.length - 1) 0 →
        Function.Injective sha →
        calculate_fast_checksum sha (file.set (file.length - 1) b) ≠
          calculate_fast_checksum sha file)
    ∧ (∀ i b, 131072 < file.length → 65536 ≤ i → i < file.length - 65536 →
        calculate_fast_checksum sha (file.set i b) =
          calculate_fast_checksum sha file) := by
  refine ⟨?_, ?_, ?_, ?_⟩
  · unfold calculate_fast_checksum
    rw [fast_input_eq_spec]
  · intro h1 h2
    rw [fast_input_eq_spec]
    show (toLE8 file.length ++ file.take 65536 ++
        (if 131072 < file.length then file.drop (file.length - 65536) else [])).length = _
    rw [if_neg (by omega)]
    simp only [List.length_append, toLE8_length, List.length_take,
      List.length_nil]
    omega
  · intro b h hb hinj heq
    have hinputs := hinj heq
    have h1 := congrArg (fun l => l[131079]?) hinputs
    have hlen : (file.set (file.length - 1) b).length = file.length :=
      List.length_set ..
    simp only at h1
    rw [fast_input_last _ (by rw [hlen]; exact h), fast_input_last _ h,
      hlen] at h1
    have hN : file.length - 1 < file.length := by omega
    rw [List.getElem?_set_self (by omega), List.getElem?_eq_getElem hN] at h1
    apply hb
    rw [List.getD_eq_getElem?_getD, List.getElem?_eq_getElem hN]
    exact Option.some.inj h1
  · intro i b h h1 h2
    unfold calculate_fast_checksum
    congr 1
    rw [fast_input_eq_spec, fast_input_eq_spec]
    simp only [fast_checksum_input_spec, List.length_set]
    rw [take_set_of_le _ _ _ _ h1, drop_set_of_lt _ _ _ _ (by omega)]

/-- Witness for C4: concrete instances at the identity digest; a 262144-byte
file is sensitive to its last byte and blind to byte 100000, and a 1000-byte
file's hashed stream has 8 + 1000 bytes. -/
theorem C4_fast_checksum_windows_witness :
    calculate_fast_checksum id (List.replicate 262144 3) =
      id (fast_checksum_input_spec (List.replicate 262144 3))
    ∧ (calculate_fast_checksum_input (List.replicate 1000 3)).length =
        8 + min 1000 65536
    ∧ calculate_fast_checksum id ((List.replicate 262144 3).set 262143 7) ≠
        calculate_fast_checksum id (List.replicate 262144 3)
    ∧ calculate_fast_checksum id ((List.replicate 262144 3).set 100000 7) =
        calculate_fast_checksum id (List.replicate 262144 3) := by
  have hlen : (List.replicate 262144 3).length = 262144 := List.length_replicate ..
  have hlast : (7 : Nat) ≠ (List.replicate 262144 3).getD ((List.replicate 262144 3).length - 1) 0 := by
    rw [hlen, List.getD_eq_getElem?_getD, List.getElem?_replicate,
      if_pos (by omega), Option.getD_some]
    omega
  refine ⟨(C4_fast_checksum_windows id (List.replicate 262144 3)).1, ?_, ?_, ?_⟩
  · have h := (C4_fast_checksum_windows id (List.replicate 1000 3)).2.1
      (by rw [List.length_replicate]; omega)
      (by rw [List.length_replicate]; omega)
    rwa [List.length_replicate] at h
  · have h := (C4_fast_checksum_windows id (List.replicate 262144 3)).2.2.1 7
      (by rw [hlen]; omega) hlast Function.injective_id
    rwa [hlen] at h
  · exact (C4_fast_checksum_windows id (List.replicate 262144 3)).2.2.2 100000 7
      (by rw [hlen]; omega) (by omega) (by rw [hlen]; omega)

/-! ### Claim C5 -/

/-- Claim C5: `create_consistent_backup` fails with the source-missing error
before any copying when the database file does not exist, and when the
backup copy completes but the destination is below 1024 bytes it fails with
the too-small error instead of returning success. -/
theorem C5_snapshot_guards :
    (∀ (e : SnapEnv) (dest : Content),
      (create_consistent_backup e false dest).1 = .error .sourceMissing
      ∧ SnapStep.backupCopyRun ∉ (create_consistent_backup e false dest).2)
    ∧ (∀ (e : SnapEnv) (dest : Content), e.openOk = true →
        e.busyTimeoutOk = true → e.openBackupOk = true →
        e.backupInitOk = true → e.backupRunOk = true → e.metadataOk = true →
        dest.length < 1024 →
        (create_consistent_backup e true dest).1 = .error .tooSmall) := by
  constructor
  · intro e dest
    constructor <;> simp [create_consistent_backup]
  · intro e dest h1 h2 h3 h4 h5 h6 h7
    simp [create_consistent_backup, h1, h2, h3, h4, h5, h6, h7]

/-- Witness for C5: a 1-byte destination is rejected as too small. -/
theorem C5_snapshot_guards_witness :
    (create_consistent_backup
      ⟨true, true, true, true, true, true, true, true⟩ true [0]).1 =
      .error .tooSmall :=
  C5_snapshot_guards.2 ⟨true, true, true, true, true, true, true, true⟩ [0]
    rfl rfl rfl rfl rfl rfl (by norm_num)

/-! ### Claim C9 -/

/-- Claim C9: checkpoint failure is never fatal.  After the environment
variable resolves, `close_database_connections` returns `Ok` for every state
of the database file, connection and checkpoint statements (first conjunct);
the result of `create_consistent_backup` is independent of the WAL
checkpoint outcome (second conjunct); and with a failed checkpoint the
snapshot still proceeds to the copy and checksum steps and succeeds (third
conjunct). -/
theorem C9_checkpoint_never_fatal :
    (∀ e : CloseEnv, e.appDataAvailable = true →
      (close_database_connections e).1 = .ok ())
    ∧ (∀ (e : SnapEnv) (dbE : Bool) (dest : Content),
        create_consistent_backup e dbE dest =
          create_consistent_backup { e with checkpointOk := false } dbE dest)
    ∧ (∀ (e : SnapEnv) (dest : Content), e.openOk = true →
        e.busyTimeoutOk = true → e.checkpointOk = false →
        e.openBackupOk = true → e.backupInitOk = true → e.backupRunOk = true →
        e.metadataOk = true → e.checksumReadOk = true → 1024 ≤ dest.length →
        (create_consistent_backup e true dest).1 =
          .ok ⟨true, dest.length, calculate_fast_checksum_input dest⟩
        ∧ SnapStep.backupCopyRun ∈ (create_consistent_backup e true dest).2
        ∧ SnapStep.checksumComputed ∈ (create_consistent_backup e true dest).2) := by
  refine ⟨?_, ?_, ?_⟩
  · intro e h
    cases hd : e.dbExists <;> cases hc : e.connOpenOk <;>
      simp [close_database_connections, h, hd, hc]
  · intro e dbE dest
    rfl
  · intro e dest h1 h2 h3 h4 h5 h6 h7 h8 h9
    have h10 : ¬ dest.length < 1024 := by omega
    refine ⟨?_, ?_, ?_⟩ <;>
      simp [create_consistent_backup, h1, h2, h4, h5, h6, h7, h8, h10]

/-- Witness for C9: a run with every checkpoint statement failing still
returns `Ok`, and a snapshot with a failed checkpoint succeeds. -/
theorem C9_checkpoint_never_fatal_witness :
    (close_database_connections
      ⟨true, true, true, false, false, false, false, false⟩).1 = .ok ()
    ∧ (create_consistent_backup
        ⟨true, true, false, true, true, true, true, true⟩ true
        (List.replicate 2048 1)).1 =
      .ok ⟨true, (List.replicate 2048 1).length,
        calculate_fast_checksum_input (List.replicate 2048 1)⟩ :=
  ⟨C9_checkpoint_never_fatal.1 _ rfl,
   (C9_checkpoint_never_fatal.2.2 _ _ rfl rfl rfl rfl rfl rfl rfl rfl
      (by rw [List.length_replicate]; omega)).1⟩

/-! ### Claim C10 -/

/-- Claim C10: on the Windows copy-and-delete fallback path,
`windows_safe_file_replace` returns `Ok` while the staged source file still
exists: when the direct rename is prevented, the copy succeeds, and all
three source-removal attempts fail, the operation reports success, the
target holds the new content, and the source file is left behind. -/
theorem C10_success_without_temp_removal (e : WinEnv) (src tgt bak : String)
    (fs : FS) (old new : Content)
    (hst : src ≠ tgt) (hsb : src ≠ bak)
    (htgt : fs tgt = some old) (hsrc : fs src = some new)
    (hbc : e.backupCopyOk = true) (hren : e.renameOk = false)
    (hcopy : e.copyOk = true) (hr1 : e.removeSrc1 = false)
    (hr2 : e.removeSrc2 = false) (hr3 : e.removeSrc3 = false) :
    (windows_safe_file_replace e src tgt bak fs).res = .ok ()
    ∧ (windows_safe_file_replace e src tgt bak fs).fs src = some new
    ∧ (windows_safe_file_replace e src tgt bak fs).fs tgt = some new := by
  refine ⟨?_, ?_, ?_⟩ <;>
    simp [windows_safe_file_replace, wsfrStrategies, winRemoveSrcLoop,
      fsRenameOp, fsCopyOp, fsRemoveOp, fsCopy, htgt, hsrc, hbc, hren, hcopy,
      hr1, hr2, hr3, hst, hsb]

/-- Witness for C10: a concrete run at the fixed paths of
`atomic_database_replace`. -/
theorem C10_success_without_temp_removal_witness :
    (windows_safe_file_replace ⟨true, false, true, false, false, false, true⟩
      tempPath dbPath backupPath
      (fun q => if q = dbPath then some [1] else
        if q = tempPath then some [2] else none)).res = .ok ()
    ∧ (windows_safe_file_replace ⟨true, false, true, false, false, false, true⟩
      tempPath dbPath backupPath
      (fun q => if q = dbPath then some [1] else
        if q = tempPath then some [2] else none)).fs tempPath = some [2]
    ∧ (windows_safe_file_replace ⟨true, false, true, false, false, false, true⟩
      tempPath dbPath backupPath
      (fun q => if q = dbPath then some [1] else
        if q = tempPath then some [2] else none)).fs dbPath = some [2] :=
  C10_success_without_temp_removal _ tempPath dbPath backupPath _ [1] [2]
    (by decide) (by decide) (by decide) (by decide)
    rfl rfl rfl rfl rfl rfl

/-! ### Claim C8 -/

/-- Counterexample to claim C8: the claim also asserts that whenever
`cleanup_restore_file` returns `DeleteFailed`, the file still exists at the
original path.  With the direct delete failing, the `del` command
unavailable, the rename succeeding and the delete of the renamed file
failing, the operation returns the delete-failed error while the original
path is absent — the file survived only at the scratch rename path. -/
theorem C8_counterexample :
    (cleanup_restore_file ⟨true, .err, false, false, true, .err⟩
      "restore.tmp" (fun q => if q = "restore.tmp" then some [9] else none)).1 =
      .error .deleteFailed
    ∧ (cleanup_restore_file ⟨true, .err, false, false, true, .err⟩
      "restore.tmp" (fun q => if q = "restore.tmp" then some [9] else none)).2
        "restore.tmp" = none
    ∧ (cleanup_restore_file ⟨true, .err, false, false, true, .err⟩
      "restore.tmp" (fun q => if q = "restore.tmp" then some [9] else none)).2
        (withExtension "restore.tmp" "tmp_delete") = some [9] := by
  refine ⟨by decide, by decide, by decide⟩

/-- Claim C8, amended: on an existing file, `cleanup_restore_file` returns
success only if the re-stat after the deletion strategies verifies the
original path absent; continued existence yields the still-exists error even
when the direct delete or the `del` command claimed success; and whenever it
returns an error the file still exists at the original path or at the
scratch rename path (`with_extension("tmp_delete")`). -/
theorem C8_forced_delete_amended (e : CleanupEnv) (p : String) (fs : FS)
    (c : Content) (h : fs p = some c) :
    ((cleanup_restore_file e p fs).1 = .ok () →
      (cleanup_restore_file e p fs).2 p = none)
    ∧ (e.directRemove = .okPending →
        (cleanup_restore_file e p fs).1 = .error .stillExistsAfterDeletion)
    ∧ (e.isWindows = true → e.directRemove = .err → e.delClaims = true →
        e.delEffective = false →
        (cleanup_restore_file e p fs).1 = .error .stillExistsAfterDeletion)
    ∧ (∀ err, (cleanup_restore_file e p fs).1 = .error err →
        (cleanup_restore_file e p fs).2 p = some c ∨
        (cleanup_restore_file e p fs).2 (withExtension p "tmp_delete") = some c) := by
  rcases eq_or_ne (withExtension p "tmp_delete") p with hps | hps
  · cases hd : e.directRemove <;>
    cases hw : e.isWindows <;>
    cases hdc : e.delClaims <;>
    cases hde : e.delEffective <;>
    cases hr : e.renameOk <;>
    cases hrr : e.removeRenamed <;>
      simp [cleanup_restore_file, cleanupVerify, rmOp, fsRenameOp, h, hd, hw,
        hdc, hde, hr, hrr, hps]
  · cases hd : e.directRemove <;>
    cases hw : e.isWindows <;>
    cases hdc : e.delClaims <;>
    cases hde : e.delEffective <;>
    cases hr : e.renameOk <;>
    cases hrr : e.removeRenamed <;>
      simp [cleanup_restore_file, cleanupVerify, rmOp, fsRenameOp, h, hd, hw,
        hdc, hde, hr, hrr, hps, Ne.symm hps, fsRename_src, fsRename_other,
        fsRemove_other]

/-- Witness for C8 (amended): a concrete delete-pending run is caught by the
verification re-stat. -/
theorem C8_forced_delete_amended_witness :
    (cleanup_restore_file ⟨true, .okPending, true, true, true, .okGone⟩
      "restore.tmp" (fun q => if q = "restore.tmp" then some [9] else none)).1 =
      .error .stillExistsAfterDeletion :=
  (C8_forced_delete_amended ⟨true, .okPending, true, true, true, .okGone⟩
    "restore.tmp" (fun q => if q = "restore.tmp" then some [9] else none) [9]
    (by decide)).2.1 rfl

/-! ### Claim C7 -/

/-- Counterexample to claim C7: the claim asserts that the supplied bytes are
written to the target via the Replace Engine's atomic-replace primitive,
whose first step stages the content in the engine's temporary file
(`store.db.restore.tmp`) beside the target.  In a successful run of
`startup_database_restore`, no observable state ever has anything at that
staging path: the content is written directly onto the target with
`std::fs::write`. -/
theorem C7_counterexample :
    (startup_database_restore ⟨true, true⟩ [2]
      (fun q => if q = dbPath then some [1] else none)).res = .ok ()
    ∧ (startup_database_restore ⟨true, true⟩ [2]
      (fun q => if q = dbPath then some [1] else none)).fs dbPath = some [2]
    ∧ ∀ s ∈ (startup_database_restore ⟨true, true⟩ [2]
        (fun q => if q = dbPath then some [1] else none)).trace,
        s tempPath = none := by
  refine ⟨by decide, by decide, by decide⟩

/-- Claim C7, amended: `startup_database_restore` writes the supplied bytes
directly onto the target with `std::fs::write`, never touching the Replace
Engine's staging path; when a pre-existing target exists, a standalone
safety copy of it is made under the fixed sibling name
`store.db.pre-restore-backup` before any overwrite (there is an observable
state in which both the target and the safety copy hold the old content and
the overwrite has not yet happened), and a failure of that copy aborts with
the target untouched. -/
theorem C7_startup_restore_amended (e : StartupEnv) (data : Content) (fs : FS)
    (old : Content) (h : fs dbPath = some old) :
    (e.safetyCopyOk = false →
      (startup_database_restore e data fs).res = .error .safetyBackupFailed
      ∧ (startup_database_restore e data fs).fs dbPath = some old)
    ∧ (e.safetyCopyOk = true →
        ∃ s ∈ (startup_database_restore e data fs).trace,
          s preRestorePath = some old ∧ s dbPath = some old)
    ∧ (e.safetyCopyOk = true → e.writeOk = true →
        (startup_database_restore e data fs).res = .ok ()
        ∧ (startup_database_restore e data fs).fs dbPath = some data
        ∧ (startup_database_restore e data fs).fs preRestorePath = some old)
    ∧ (∀ s ∈ (startup_database_restore e data fs).trace,
        s tempPath = fs tempPath) := by
  have h1 : preRestorePath ≠ dbPath := by decide
  have h2 : tempPath ≠ dbPath := by decide
  have h3 : tempPath ≠ preRestorePath := by decide
  cases hc : e.safetyCopyOk <;> cases hw : e.writeOk <;>
    simp_all [startup_database_restore, fsCopyOp, fsCopy, fsWrite, h,
      Ne.symm h1, Ne.symm h2, Ne.symm h3]

/-- Witness for C7 (amended): a concrete successful run restores the new
content and leaves the safety copy in place. -/
theorem C7_startup_restore_amended_witness :
    (startup_database_restore ⟨true, true⟩ [2]
      (fun q => if q = dbPath then some [1] else none)).res = .ok ()
    ∧ (startup_database_restore ⟨true, true⟩ [2]
      (fun q => if q = dbPath then some [1] else none)).fs dbPath = some [2]
    ∧ (startup_database_restore ⟨true, true⟩ [2]
      (fun q => if q = dbPath then some [1] else none)).fs preRestorePath =
        some [1] :=
  (C7_startup_restore_amended ⟨true, true⟩ [2]
    (fun q => if q = dbPath then some [1] else none) [1] (by decide)).2.2.1
    rfl rfl

/-! ### Claim C6 -/


theorem resolveList_cons (env : DirEnv) (p : String) (l : List String) :
    resolveList env (p :: l) =
      if (ensure_directory_writable env p).isOk then Except.ok p
      else resolveList env l := by
  cases hp : (ensure_directory_writable env p).isOk <;>
    simp [resolveList, probeAccepts, hp]

theorem appDataStrategy5_eq (env : DirEnv) (n : String) :
    appDataStrategy5 env n =
      resolveList env (env.currentDir.map (fun c => c ++ "/data/" ++ n)).toList := by
  cases hc : env.currentDir with
  | none => simp [appDataStrategy5, resolveList, hc]
  | some c =>
    cases hp : (ensure_directory_writable env (c ++ "/data/" ++ n)).isOk <;>
      simp [appDataStrategy5, resolveList, resolveList_cons, probeAccepts, hc, hp]

theorem appDataStrategy4_eq (env : DirEnv) (n : String) :
    appDataStrategy4 env n =
      resolveList env ((env.temp.map (fun r => r ++ "/" ++ n)).toList ++
        (env.currentDir.map (fun c => c ++ "/data/" ++ n)).toList) := by
  cases ht : env.temp with
  | none => simp [appDataStrategy4, appDataStrategy5_eq, ht]
  | some r =>
    cases hp : (ensure_directory_writable env (r ++ "/" ++ n)).isOk <;>
      simp [appDataStrategy4, appDataStrategy5_eq, resolveList_cons,
        probeAccepts, ht, hp]

theorem appDataStrategy3_eq (env : DirEnv) (n : String) :
    appDataStrategy3 env n =
      resolveList env ((env.userprofile.map (fun r => r ++ "/Documents/" ++ n)).toList ++
        (env.temp.map (fun r => r ++ "/" ++ n)).toList ++
        (env.currentDir.map (fun c => c ++ "/data/" ++ n)).toList) := by
  cases hu : env.userprofile with
  | none => simp [appDataStrategy3, appDataStrategy4_eq, hu, List.append_assoc]
  | some r =>
    cases hp : (ensure_directory_writable env (r ++ "/Documents/" ++ n)).isOk <;>
      simp [appDataStrategy3, appDataStrategy4_eq, resolveList_cons,
        probeAccepts, hu, hp, List.append_assoc]

theorem appDataStrategy2_eq (env : DirEnv) (n : String) :
    appDataStrategy2 env n =
      resolveList env ((env.localappdata.map (fun r => r ++ "/" ++ n)).toList ++
        (env.userprofile.map (fun r => r ++ "/Documents/" ++ n)).toList ++
        (env.temp.map (fun r => r ++ "/" ++ n)).toList ++
        (env.currentDir.map (fun c => c ++ "/data/" ++ n)).toList) := by
  cases hl : env.localappdata with
  | none => simp [appDataStrategy2, appDataStrategy3_eq, hl, List.append_assoc]
  | some r =>
    cases hp : (ensure_directory_writable env (r ++ "/" ++ n)).isOk <;>
      simp [appDataStrategy2, appDataStrategy3_eq, resolveList_cons,
        probeAccepts, hl, hp, List.append_assoc]

theorem gwadd_eq (env : DirEnv) (n : String) :
    get_windows_app_data_dir env n = resolveList env (dirCandidates env n) := by
  cases ha : env.appdata with
  | none => simp [get_windows_app_data_dir, appDataStrategy2_eq, dirCandidates,
      ha, List.append_assoc]
  | some r =>
    cases hp : (ensure_directory_writable env (r ++ "/" ++ n)).isOk <;>
      simp [get_windows_app_data_dir, appDataStrategy2_eq, resolveList_cons,
        probeAccepts, dirCandidates, ha, hp, List.append_assoc]

/-- Claim C6, amended: `get_windows_app_data_dir` tries its candidates in
the fixed order primary app-data root, secondary app-data root,
user-documents dir, temp dir, current-working-directory-based dir, accepting
the first whose directory can be created and passes the write probe, and
returns that root joined with the application name (first conjunct); but
when every candidate fails, the returned error is the fixed
`NoWritableLocation` message, which does not retain the last underlying OS
error (second conjunct). -/
theorem C6_directory_resolver_amended (env : DirEnv) (appName : String) :
    get_windows_app_data_dir env appName =
      resolveList env (dirCandidates env appName)
    ∧ (∀ m, get_windows_app_data_dir env appName = .error m →
        m = .noWritableDir) := by
  have h1 := gwadd_eq env appName
  refine ⟨h1, ?_⟩
  intro m hm
  rw [h1, resolveList] at hm
  rcases hfind : (dirCandidates env appName).find? (probeAccepts env) with _ | p <;>
    rw [hfind] at hm
  · exact (Except.error.inj hm).symm
  · exact absurd hm (by simp)

/-- Witness for C6 (amended): with only the primary root set and a passing
probe, the resolver returns that root joined with the app name. -/
theorem C6_directory_resolver_amended_witness :
    get_windows_app_data_dir
      ⟨some "A", none, none, none, none, fun _ => .ok⟩ "app" =
      resolveList ⟨some "A", none, none, none, none, fun _ => .ok⟩
        (dirCandidates ⟨some "A", none, none, none, none, fun _ => .ok⟩ "app")
    ∧ get_windows_app_data_dir
        ⟨some "A", none, none, none, none, fun _ => .ok⟩ "app" =
        .ok ("A" ++ "/" ++ "app") :=
  ⟨(C6_directory_resolver_amended
      ⟨some "A", none, none, none, none, fun _ => .ok⟩ "app").1, rfl⟩

/-- Counterexample to claim C6: the claim also asserts that when every
candidate fails, the returned `NoWritableLocation` error retains and
surfaces the last underlying OS error.  With all five roots present and
every probe failing with OS error 7, the resolver returns the fixed
no-writable-directory message, a constructor that carries no OS error at
all. -/
theorem C6_counterexample :
    get_windows_app_data_dir
      ⟨some "A", some "B", some "C", some "D", some "E", fun _ => .writeFail 7⟩
      "app" = .error .noWritableDir
    ∧ ∀ k, DirMsg.noWritableDir ≠ DirMsg.cannotCreate k
        ∧ DirMsg.noWritableDir ≠ DirMsg.notWritable k :=
  ⟨rfl, fun _ => ⟨fun h => DirMsg.noConfusion h, fun h => DirMsg.noConfusion h⟩⟩

theorem fsRenameOp_eq_some (ok : Bool) (src dst : String) (fs f : FS)
    (h : fsRenameOp ok src dst fs = some f) : f = fsRename src dst fs := by
  unfold fsRenameOp at h
  split at h
  · exact (Option.some.inj h).symm
  · cases h

theorem fsRemoveOp_eq_some (ok : Bool) (p : String) (fs f : FS)
    (h : fsRemoveOp ok p fs = some f) : f = fsRemove p fs := by
  unfold fsRemoveOp at h
  split at h
  · exact (Option.some.inj h).symm
  · cases h

theorem fsCopyOp_eq_some (ok : Bool) (src dst : String) (fs f : FS)
    (h : fsCopyOp ok src dst fs = some f) : f = fsCopy src dst fs := by
  unfold fsCopyOp at h
  split at h
  · exact (Option.some.inj h).symm
  · cases h

theorem renameDbLoop_spec (e : AtomicEnv) (fs : FS) :
    ((renameDbLoop e fs).success = true ∧
        (renameDbLoop e fs).fs = fsRename dbPath backupPath fs
      ∨ (renameDbLoop e fs).success = false ∧ (renameDbLoop e fs).fs = fs)
    ∧ (∀ s ∈ (renameDbLoop e fs).trace,
        s = fs ∨ s = fsRename dbPath backupPath fs) := by
  unfold renameDbLoop
  rcases h1 : fsRenameOp e.renBak1 dbPath backupPath fs with _ | f1
  · rcases h2 : fsRenameOp e.renBak2 dbPath backupPath fs with _ | f2
    · rcases h3 : fsRenameOp e.renBak3 dbPath backupPath fs with _ | f3
      · simp
      · obtain rfl := fsRenameOp_eq_some _ _ _ _ _ h3
        simp
    · obtain rfl := fsRenameOp_eq_some _ _ _ _ _ h2
      simp
  · obtain rfl := fsRenameOp_eq_some _ _ _ _ _ h1
    simp

theorem removeDbLoop_spec (e : AtomicEnv) (fs : FS) :
    ((removeDbLoop e fs).success = true ∧
        (removeDbLoop e fs).fs = fsRemove dbPath fs
      ∨ (removeDbLoop e fs).success = false ∧ (removeDbLoop e fs).fs = fs)
    ∧ (∀ s ∈ (removeDbLoop e fs).trace, s = fs ∨ s = fsRemove dbPath fs) := by
  unfold removeDbLoop
  rcases h1 : fsRemoveOp e.removeDb1 dbPath fs with _ | f1
  · rcases h2 : fsRemoveOp e.removeDb2 dbPath fs with _ | f2
    · rcases h3 : fsRemoveOp e.removeDb3 dbPath fs with _ | f3
      · rcases h4 : fsRemoveOp e.removeDb4 dbPath fs with _ | f4
        · rcases h5 : fsRemoveOp e.removeDb5 dbPath fs with _ | f5
          · simp
          · obtain rfl := fsRemoveOp_eq_some _ _ _ _ h5
            simp
        · obtain rfl := fsRemoveOp_eq_some _ _ _ _ h4
          simp
      · obtain rfl := fsRemoveOp_eq_some _ _ _ _ h3
        simp
    · obtain rfl := fsRemoveOp_eq_some _ _ _ _ h2
      simp
  · obtain rfl := fsRemoveOp_eq_some _ _ _ _ h1
    simp

theorem finalRenameLoop_spec (e : AtomicEnv) (fs : FS) :
    ((finalRenameLoop e fs).1 = none ∨
      (finalRenameLoop e fs).1 = some (fsRename tempPath dbPath fs))
    ∧ (∀ s ∈ (finalRenameLoop e fs).2.1,
        s = fs ∨ s = fsRename tempPath dbPath fs) := by
  unfold finalRenameLoop
  rcases h1 : fsRenameOp e.finalRen1 tempPath dbPath fs with _ | f1
  · rcases h2 : fsRenameOp e.finalRen2 tempPath dbPath fs with _ | f2
    · rcases h3 : fsRenameOp e.finalRen3 tempPath dbPath fs with _ | f3
      · rcases h4 : fsRenameOp e.finalRen4 tempPath dbPath fs with _ | f4
        · rcases h5 : fsRenameOp e.finalRen5 tempPath dbPath fs with _ | f5
          · simp
          · obtain rfl := fsRenameOp_eq_some _ _ _ _ _ h5
            simp
        · obtain rfl := fsRenameOp_eq_some _ _ _ _ _ h4
          simp
      · obtain rfl := fsRenameOp_eq_some _ _ _ _ _ h3
        simp
    · obtain rfl := fsRenameOp_eq_some _ _ _ _ _ h2
      simp
  · obtain rfl := fsRenameOp_eq_some _ _ _ _ _ h1
    simp
theorem winRemoveSrcLoop_spec (e : WinEnv) (src : String) (fs : FS) :
    (winRemoveSrcLoop e src fs).success = true
    ∧ ((winRemoveSrcLoop e src fs).fs = fs ∨
        (winRemoveSrcLoop e src fs).fs = fsRemove src fs)
    ∧ (∀ s ∈ (winRemoveSrcLoop e src fs).trace,
        s = fs ∨ s = fsRemove src fs) := by
  unfold winRemoveSrcLoop
  rcases h1 : fsRemoveOp e.removeSrc1 src fs with _ | f1
  · rcases h2 : fsRemoveOp e.removeSrc2 src fs with _ | f2
    · rcases h3 : fsRemoveOp e.removeSrc3 src fs with _ | f3
      · simp
      · obtain rfl := fsRemoveOp_eq_some _ _ _ _ h3
        simp
    · obtain rfl := fsRemoveOp_eq_some _ _ _ _ h2
      simp
  · obtain rfl := fsRemoveOp_eq_some _ _ _ _ h1
    simp

theorem wsfr_target_states (e : WinEnv) (src tgt bak : String) (fs : FS)
    (old new : Content) (hts : tgt ≠ src) (htb : tgt ≠ bak) (hsb : src ≠ bak)
    (htgt : fs tgt = some old) (hsrc : fs src = some new) :
    (∀ s ∈ (windows_safe_file_replace e src tgt bak fs).trace,
      s tgt = some old ∨ s tgt = some new)
    ∧ ((windows_safe_file_replace e src tgt bak fs).res = .ok () →
        (windows_safe_file_replace e src tgt bak fs).fs tgt = some new)
    ∧ (∀ err, (windows_safe_file_replace e src tgt bak fs).res = .error err →
        (windows_safe_file_replace e src tgt bak fs).fs tgt = some old) := by
  cases hb : e.backupCopyOk <;>
  cases hr : e.renameOk <;>
  cases hc : e.copyOk <;>
  cases h1 : e.removeSrc1 <;>
  cases h2 : e.removeSrc2 <;>
  cases h3 : e.removeSrc3 <;>
    simp [windows_safe_file_replace, wsfrStrategies, winRemoveSrcLoop,
      fsRenameOp, fsCopyOp, fsRemoveOp, fsRename, fsCopy, fsRemove,
      htgt, hsrc, hb, hr, hc, h1, h2, h3, hts, htb, hsb,
      Ne.symm hts, Ne.symm htb, Ne.symm hsb]
theorem dbPath_ne_tempPath : dbPath ≠ tempPath := by decide

theorem dbPath_ne_backupPath : dbPath ≠ backupPath := by decide

theorem tempPath_ne_backupPath : tempPath ≠ backupPath := by decide

theorem tempPath_ne_dbPath : tempPath ≠ dbPath := by decide

theorem backupPath_ne_dbPath : backupPath ≠ dbPath := by decide

theorem backupPath_ne_tempPath : backupPath ≠ tempPath := by decide

/-- Behaviour of the final rename-into-place step from a state where the
target has been vacated: success puts the staged content at the target and
failure leaves the target restored from the backup or absent. -/
theorem replaceFinish_spec (e : AtomicEnv) (fsV : FS) (tr : List FS)
    (sl : List Nat) (old data : Content)
    (ht : fsV tempPath = some data) (hd : fsV dbPath = none)
    (hb : fsV backupPath = some old) :
    (∀ s ∈ (replaceFinish e fsV tr sl).trace,
      s ∈ tr ∨ s dbPath = none ∨ s dbPath = some data ∨ s dbPath = some old)
    ∧ ((replaceFinish e fsV tr sl).res = .ok () →
        (replaceFinish e fsV tr sl).fs dbPath = some data)
    ∧ (∀ err, (replaceFinish e fsV tr sl).res = .error err →
        (replaceFinish e fsV tr sl).fs dbPath = some old ∨
        (replaceFinish e fsV tr sl).fs dbPath = none) := by
  have hrt : fsRename tempPath dbPath fsV dbPath = some data := by
    rw [fsRename_dst]; exact ht
  obtain ⟨hopt, htr⟩ := finalRenameLoop_spec e fsV
  unfold replaceFinish
  rcases hl : (finalRenameLoop e fsV) with ⟨o, tr2, sl2⟩
  rw [hl] at hopt htr
  have htr2 : ∀ s ∈ tr2, s dbPath = none ∨ s dbPath = some data := by
    intro s hs
    rcases htr s hs with rfl | rfl
    · exact Or.inl hd
    · exact Or.inr hrt
  rcases hopt with rfl | rfl
  · -- all five attempts failed: best-effort restore, then the error
    dsimp only
    refine ⟨?_, ?_, ?_⟩
    · intro s hs
      simp only [List.mem_append, List.mem_singleton] at hs
      rcases hs with (hs | hs) | rfl
      · exact Or.inl hs
      · rcases htr2 s hs with h | h
        · exact Or.inr (Or.inl h)
        · exact Or.inr (Or.inr (Or.inl h))
      · split
        · rw [fsRename_dst]
          exact Or.inr (Or.inr (Or.inr hb))
        · exact Or.inr (Or.inl hd)
    · intro hok
      exact absurd hok (by simp)
    · intro err _
      split
      · rw [fsRename_dst, hb]
        exact Or.inl rfl
      · exact Or.inr hd
  · -- an attempt succeeded: best-effort backup cleanup, then success
    dsimp only
    have hfd : ∀ g : FS, g = (if (fsRename tempPath dbPath fsV backupPath).isSome
          && e.cleanupBakOk then fsRemove backupPath (fsRename tempPath dbPath fsV)
        else fsRename tempPath dbPath fsV) → g dbPath = some data := by
      intro g hg
      rw [hg]
      split
      · rw [fsRemove_other _ _ _ dbPath_ne_backupPath]
        exact hrt
      · exact hrt
    refine ⟨?_, ?_, ?_⟩
    · intro s hs
      simp only [List.mem_append, List.mem_singleton] at hs
      rcases hs with (hs | hs) | rfl
      · exact Or.inl hs
      · rcases htr2 s hs with h | h
        · exact Or.inr (Or.inl h)
        · exact Or.inr (Or.inr (Or.inl h))
      · exact Or.inr (Or.inr (Or.inl (hfd _ rfl)))
    · intro _
      exact hfd _ rfl
    · intro err herr
      exact absurd herr (by simp)
/-- Branch selection: with the Windows branch disabled and an existing
target, `atomic_database_replace` runs its fallback body. -/
theorem atomic_fallback_eq (e : AtomicEnv) (data : Content) (fs : FS)
    (hW : e.isWindows = false) (hT : e.writeTempOk = true)
    (c : Content) (h : fs dbPath = some c) :
    atomic_database_replace e data fs =
      (let fs1 := fsWrite tempPath data fs
       let fs2 := if (fs1 backupPath).isSome && e.removeOldBackupOk then
           fsRemove backupPath fs1 else fs1
       let l1 := renameDbLoop e fs2
       if l1.success then
         replaceFinish e l1.fs ([fs, fs1, fs2] ++ l1.trace) l1.sleeps
       else
         match fsCopyOp e.copyBakOk dbPath backupPath l1.fs with
         | none => ⟨.error .backupCopyFailed, l1.fs,
             [fs, fs1, fs2] ++ l1.trace ++ [l1.fs], l1.sleeps⟩
         | some fs3 =>
           let l2 := removeDbLoop e fs3
           if l2.success then
             replaceFinish e l2.fs
               ([fs, fs1, fs2] ++ l1.trace ++ [fs3] ++ l2.trace)
               (l1.sleeps ++ l2.sleeps)
           else
             ⟨.error .removeOldFailed, l2.fs,
               [fs, fs1, fs2] ++ l1.trace ++ [fs3] ++ l2.trace,
               l1.sleeps ++ l2.sleeps⟩) := by
  have h1 : fsWrite tempPath data fs dbPath = some c := by
    rw [fsWrite_other _ _ _ _ dbPath_ne_tempPath]; exact h
  unfold atomic_database_replace
  rw [if_neg (by simp [hT]), if_neg (by simp [hW]), h1]
theorem renameDbLoop_success_iff (e : AtomicEnv) (fs : FS)
    (h : (fs dbPath).isSome = true) :
    (renameDbLoop e fs).success = (e.renBak1 || e.renBak2 || e.renBak3) := by
  cases hb1 : e.renBak1 <;> cases hb2 : e.renBak2 <;> cases hb3 : e.renBak3 <;>
    simp [renameDbLoop, fsRenameOp, h, hb1, hb2, hb3]

theorem removeDbLoop_success_iff (e : AtomicEnv) (fs : FS)
    (h : (fs dbPath).isSome = true) :
    (removeDbLoop e fs).success =
      (e.removeDb1 || e.removeDb2 || e.removeDb3 || e.removeDb4 || e.removeDb5) := by
  cases hb1 : e.removeDb1 <;> cases hb2 : e.removeDb2 <;>
  cases hb3 : e.removeDb3 <;> cases hb4 : e.removeDb4 <;>
  cases hb5 : e.removeDb5 <;>
    simp [removeDbLoop, fsRemoveOp, h, hb1, hb2, hb3, hb4, hb5]

/-- The fallback branch of `atomic_database_replace` on an existing target:
when a vacate strategy succeeds the run continues as `replaceFinish` from a
state with the target absent, the staged content at the temp path and the
old content at the backup path; when no vacate strategy succeeds the run
aborts with the backup-copy or removal error, leaving the target and the
temp file untouched.  In both cases every state observed before the finish
step has the target holding the old content or absent. -/
theorem fallback_run_spec (e : AtomicEnv) (data old : Content) (fs : FS)
    (hW : e.isWindows = false) (hT : e.writeTempOk = true)
    (h : fs dbPath = some old) :
    (vacateSucceeds e = true →
      ∃ fsV tr sl, atomic_database_replace e data fs = replaceFinish e fsV tr sl
        ∧ fsV tempPath = some data ∧ fsV dbPath = none
        ∧ fsV backupPath = some old
        ∧ ∀ s ∈ tr, s dbPath = some old ∨ s dbPath = none)
    ∧ (vacateSucceeds e = false →
        ((atomic_database_replace e data fs).res = .error .backupCopyFailed ∨
          (atomic_database_replace e data fs).res = .error .removeOldFailed)
        ∧ (atomic_database_replace e data fs).fs dbPath = some old
        ∧ (atomic_database_replace e data fs).fs tempPath = some data
        ∧ ∀ s ∈ (atomic_database_replace e data fs).trace,
            s dbPath = some old ∨ s dbPath = none) := by
  rw [atomic_fallback_eq e data fs hW hT old h]
  dsimp only
  set fs1 := fsWrite tempPath data fs with hfs1def
  have hfs1d : fs1 dbPath = some old := by
    rw [hfs1def, fsWrite_other _ _ _ _ dbPath_ne_tempPath]; exact h
  have hfs1t : fs1 tempPath = some data := by rw [hfs1def]; exact fsWrite_self ..
  set fs2 := (if (fs1 backupPath).isSome && e.removeOldBackupOk then
      fsRemove backupPath fs1 else fs1) with hfs2def
  have hfs2d : fs2 dbPath = some old := by
    rw [hfs2def]; split
    · rw [fsRemove_other _ _ _ dbPath_ne_backupPath]; exact hfs1d
    · exact hfs1d
  have hfs2t : fs2 tempPath = some data := by
    rw [hfs2def]; split
    · rw [fsRemove_other _ _ _ tempPath_ne_backupPath]; exact hfs1t
    · exact hfs1t
  obtain ⟨hdisj, htr1⟩ := renameDbLoop_spec e fs2
  have hsiff := renameDbLoop_success_iff e fs2 (by rw [hfs2d]; rfl)
  have htr1P : ∀ s ∈ (renameDbLoop e fs2).trace,
      s dbPath = some old ∨ s dbPath = none := by
    intro s hs
    rcases htr1 s hs with rfl | rfl
    · exact Or.inl hfs2d
    · exact Or.inr (by rw [fsRename_src _ _ _ dbPath_ne_backupPath])
  rcases hdisj with ⟨hs, hfsV⟩ | ⟨hs, hfsV⟩
  · -- strategy 1 vacated the target by moving it to the backup path
    rw [hs]
    simp only [if_true]
    have hbors : (e.renBak1 || e.renBak2 || e.renBak3) = true := hsiff ▸ hs
    constructor
    · intro _
      refine ⟨(renameDbLoop e fs2).fs, _, _, rfl, ?_, ?_, ?_, ?_⟩
      · rw [hfsV, fsRename_other _ _ _ _ (Ne.symm backupPath_ne_tempPath)
          (Ne.symm dbPath_ne_tempPath)]
        exact hfs2t
      · rw [hfsV, fsRename_src _ _ _ dbPath_ne_backupPath]
      · rw [hfsV, fsRename_dst]; exact hfs2d
      · intro s hs2
        simp [List.mem_append, List.mem_cons] at hs2
        rcases hs2 with rfl | rfl | rfl | hs2
        · exact Or.inl h
        · exact Or.inl hfs1d
        · exact Or.inl hfs2d
        · exact htr1P s hs2
    · intro hv
      rw [vacateSucceeds, hbors] at hv
      simp at hv
  · -- strategy 1 failed: copy then delete
    rw [hs]
    simp only [Bool.false_eq_true, if_false, hfsV]
    have hbors : (e.renBak1 || e.renBak2 || e.renBak3) = false := hsiff ▸ hs
    cases hcb : e.copyBakOk
    · -- the backup copy fails: abort with the target untouched
      have hnone : fsCopyOp false dbPath backupPath fs2 = none := by
        simp [fsCopyOp]
      rw [hnone]
      constructor
      · intro hv
        rw [vacateSucceeds, hbors, hcb] at hv
        simp at hv
      · intro _
        refine ⟨Or.inl (by simp), hfs2d, hfs2t, ?_⟩
        intro s hs2
        simp [List.mem_append, List.mem_cons] at hs2
        rcases hs2 with rfl | rfl | rfl | hs2 | rfl
        · exact Or.inl h
        · exact Or.inl hfs1d
        · exact Or.inl hfs2d
        · exact htr1P s hs2
        · exact Or.inl hfs2d
    · -- the backup copy succeeds
      have hsome : fsCopyOp true dbPath backupPath fs2 =
          some (fsCopy dbPath backupPath fs2) := by
        simp [fsCopyOp, hfs2d]
      rw [hsome]
      dsimp only
      set fs3 := fsCopy dbPath backupPath fs2 with hfs3def
      have hfs3d : fs3 dbPath = some old := by
        rw [hfs3def, fsCopy_other _ _ _ _ dbPath_ne_backupPath]; exact hfs2d
      have hfs3t : fs3 tempPath = some data := by
        rw [hfs3def, fsCopy_other _ _ _ _ tempPath_ne_backupPath]; exact hfs2t
      have hfs3b : fs3 backupPath = some old := by
        rw [hfs3def, fsCopy_dst]; exact hfs2d
      obtain ⟨hdisj2, htr2⟩ := removeDbLoop_spec e fs3
      have hsiff2 := removeDbLoop_success_iff e fs3 (by rw [hfs3d]; rfl)
      have htr2P : ∀ s ∈ (removeDbLoop e fs3).trace,
          s dbPath = some old ∨ s dbPath = none := by
        intro s hs2
        rcases htr2 s hs2 with rfl | rfl
        · exact Or.inl hfs3d
        · exact Or.inr (fsRemove_self ..)
      rcases hdisj2 with ⟨hs2, hfsV2⟩ | ⟨hs2, hfsV2⟩
      · -- removal vacated the target
        rw [hs2]
        simp only [if_true]
        have hrors : (e.removeDb1 || e.removeDb2 || e.removeDb3 ||
            e.removeDb4 || e.removeDb5) = true := hsiff2 ▸ hs2
        constructor
        · intro _
          refine ⟨(removeDbLoop e fs3).fs, _, _, rfl, ?_, ?_, ?_, ?_⟩
          · rw [hfsV2, fsRemove_other _ _ _ tempPath_ne_dbPath]; exact hfs3t
          · rw [hfsV2]; exact fsRemove_self ..
          · rw [hfsV2, fsRemove_other _ _ _ backupPath_ne_dbPath]; exact hfs3b
          · intro s hs3
            simp [List.mem_append, List.mem_cons] at hs3
            rcases hs3 with rfl | rfl | rfl | hs3 | rfl | hs3
            · exact Or.inl h
            · exact Or.inl hfs1d
            · exact Or.inl hfs2d
            · exact htr1P s hs3
            · exact Or.inl hfs3d
            · exact htr2P s hs3
        · intro hv
          rw [vacateSucceeds, hbors, hcb, hrors] at hv
          simp at hv
      · -- removal never succeeded: abort with the temp untouched
        rw [hs2]
        simp only [Bool.false_eq_true, if_false, hfsV2]
        have hrors : (e.removeDb1 || e.removeDb2 || e.removeDb3 ||
            e.removeDb4 || e.removeDb5) = false := hsiff2 ▸ hs2
        constructor
        · intro hv
          rw [vacateSucceeds, hbors, hcb, hrors] at hv
          simp at hv
        · intro _
          refine ⟨Or.inr (by simp), hfs3d, hfs3t, ?_⟩
          intro s hs3
          simp [List.mem_append, List.mem_cons] at hs3
          rcases hs3 with rfl | rfl | rfl | hs3 | rfl | hs3
          · exact Or.inl h
          · exact Or.inl hfs1d
          · exact Or.inl hfs2d
          · exact htr1P s hs3
          · exact Or.inl hfs3d
          · exact htr2P s hs3
/-- Branch selection: on Windows with an existing target,
`atomic_database_replace` delegates to `windows_safe_file_replace`. -/
theorem atomic_windows_eq (e : AtomicEnv) (data : Content) (fs : FS)
    (hW : e.isWindows = true) (hT : e.writeTempOk = true)
    (c : Content) (h : fs dbPath = some c) :
    atomic_database_replace e data fs =
      (let fs1 := fsWrite tempPath data fs
       let w := windows_safe_file_replace e.win tempPath dbPath backupPath fs1
       match w.res with
       | .ok _ => ⟨.ok (), w.fs, fs :: w.trace, w.sleeps⟩
       | .error err =>
         ⟨.error (.productionReplaceFailed err), w.fs, fs :: w.trace, w.sleeps⟩) := by
  have h1 : fsWrite tempPath data fs dbPath = some c := by
    rw [fsWrite_other _ _ _ _ dbPath_ne_tempPath]; exact h
  unfold atomic_database_replace
  rw [if_neg (by simp [hT]), if_pos (by simp [hW, h1])]

/-- Claim C1, amended: on the Windows branch with an existing target, every
observable instant has a file at the target path holding the pre- or
post-replace content (no absence window at all, since the fallback swap
copies over the target in place); on the non-Windows fallback branch every
instant has the target holding the pre- or post-content or absent, and no
other content ever appears there; a successful operation ends with the
post-content in place; a failed operation ends with the pre-content in
place or with the target absent — the absence can persist past the end of
the operation when the final rename attempts and the best-effort restore
all fail, so it is not confined to the window between the vacate and
rename-into-place sub-steps. -/
theorem C1_replace_presence_amended (e : AtomicEnv) (data old : Content)
    (fs : FS) (h : fs dbPath = some old) :
    (e.isWindows = true →
      ∀ s ∈ (atomic_database_replace e data fs).trace,
        s dbPath = some old ∨ s dbPath = some data)
    ∧ (∀ s ∈ (atomic_database_replace e data fs).trace,
        s dbPath = some old ∨ s dbPath = some data ∨ s dbPath = none)
    ∧ ((atomic_database_replace e data fs).res = .ok () →
        (atomic_database_replace e data fs).fs dbPath = some data)
    ∧ (∀ err, (atomic_database_replace e data fs).res = .error err →
        (atomic_database_replace e data fs).fs dbPath = some old ∨
        (atomic_database_replace e data fs).fs dbPath = none) := by
  cases hT : e.writeTempOk
  · -- the temp write fails: the operation aborts untouched
    have hrun : atomic_database_replace e data fs =
        ⟨.error .writeTempFailed, fs, [fs, fs], []⟩ := by
      unfold atomic_database_replace
      rw [if_pos (by simp [hT])]
    rw [hrun]
    refine ⟨?_, ?_, ?_, ?_⟩
    · intro _ s hs
      obtain rfl : s = fs := by simpa using hs
      exact Or.inl h
    · intro s hs
      obtain rfl : s = fs := by simpa using hs
      exact Or.inl h
    · intro hok
      exact absurd hok (by simp)
    · intro err _
      exact Or.inl h
  · cases hWin : e.isWindows
    · -- the fallback branch
      cases hv : vacateSucceeds e
      · obtain ⟨hres, hdbf, _, htrf⟩ :=
          (fallback_run_spec e data old fs hWin hT h).2 hv
        refine ⟨fun hw => absurd hw (by decide), ?_, ?_, ?_⟩
        · intro s hs
          rcases htrf s hs with h1 | h1
          · exact Or.inl h1
          · exact Or.inr (Or.inr h1)
        · intro hok
          rcases hres with h1 | h1 <;> rw [h1] at hok <;> cases hok
        · intro err _
          exact Or.inl hdbf
      · obtain ⟨fsV, tr, sl, heq, htV, hdV, hbV, htr⟩ :=
          (fallback_run_spec e data old fs hWin hT h).1 hv
        obtain ⟨htrFin, hok, herr⟩ :=
          replaceFinish_spec e fsV tr sl old data htV hdV hbV
        rw [heq]
        refine ⟨fun hw => absurd hw (by decide), ?_, hok, herr⟩
        intro s hs
        rcases htrFin s hs with h1 | h1 | h1 | h1
        · rcases htr s h1 with h2 | h2
          · exact Or.inl h2
          · exact Or.inr (Or.inr h2)
        · exact Or.inr (Or.inr h1)
        · exact Or.inr (Or.inl h1)
        · exact Or.inl h1
    · -- the Windows branch
      have hfs1d : fsWrite tempPath data fs dbPath = some old := by
        rw [fsWrite_other _ _ _ _ dbPath_ne_tempPath]; exact h
      have hfs1t : fsWrite tempPath data fs tempPath = some data :=
        fsWrite_self ..
      obtain ⟨hwtr, hwok, hwerr⟩ := wsfr_target_states e.win tempPath dbPath
        backupPath (fsWrite tempPath data fs) old data dbPath_ne_tempPath
        dbPath_ne_backupPath tempPath_ne_backupPath hfs1d hfs1t
      rw [atomic_windows_eq e data fs hWin hT old h]
      dsimp only
      rcases hwres : (windows_safe_file_replace e.win tempPath dbPath backupPath
          (fsWrite tempPath data fs)).res with err2 | u <;> dsimp only
      · refine ⟨?_, ?_, ?_, ?_⟩
        · intro _ s hs
          rw [List.mem_cons] at hs
          rcases hs with rfl | hs
          · exact Or.inl h
          · exact hwtr s hs
        · intro s hs
          rw [List.mem_cons] at hs
          rcases hs with rfl | hs
          · exact Or.inl h
          · rcases hwtr s hs with h1 | h1
            · exact Or.inl h1
            · exact Or.inr (Or.inl h1)
        · intro hok
          exact absurd hok (by simp)
        · intro err _
          exact Or.inl (hwerr err2 hwres)
      · refine ⟨?_, ?_, ?_, ?_⟩
        · intro _ s hs
          rw [List.mem_cons] at hs
          rcases hs with rfl | hs
          · exact Or.inl h
          · exact hwtr s hs
        · intro s hs
          rw [List.mem_cons] at hs
          rcases hs with rfl | hs
          · exact Or.inl h
          · rcases hwtr s hs with h1 | h1
            · exact Or.inl h1
            · exact Or.inr (Or.inl h1)
        · intro _
          exact hwok hwres
        · intro err herr
          exact absurd herr (by simp)

/-- Counterexample to claim C1: the claim allows the target to be absent
only during the narrow window between the remove-target and
rename-temp-into-place sub-steps.  On the fallback path, when the target
has been vacated, all five rename-into-place attempts fail and the
best-effort restore also fails, the operation returns with the target
absent: the final observable instant of the operation — after both
sub-steps have concluded — has no file at the target path, and the absence
persists beyond the operation. -/
theorem C1_counterexample :
    (atomic_database_replace
      { allOkAtomic with
          finalRen1 := false, finalRen2 := false, finalRen3 := false,
          finalRen4 := false, finalRen5 := false, restoreRenOk := false }
      [2] (fun q => if q = dbPath then some [1] else none)).res =
      .error (.moveTempFailed 5)
    ∧ (atomic_database_replace
      { allOkAtomic with
          finalRen1 := false, finalRen2 := false, finalRen3 := false,
          finalRen4 := false, finalRen5 := false, restoreRenOk := false }
      [2] (fun q => if q = dbPath then some [1] else none)).fs dbPath =
      none :=
  ⟨by decide, by decide⟩

/-- Witness for C1 (amended): a fully successful fallback run ends with the
new content at the target. -/
theorem C1_replace_presence_amended_witness :
    (atomic_database_replace allOkAtomic [2]
      (fun q => if q = dbPath then some [1] else none)).fs dbPath = some [2] :=
  (C1_replace_presence_amended allOkAtomic [2] [1]
    (fun q => if q = dbPath then some [1] else none) (by decide)).2.2.1
    (by decide)

/-- Counterexample to claim C3: the claim asserts that when the final
rename-into-place fails on all five attempts the operation restores the
target to its pre-call content.  The restore is only best-effort: when the
rename of the backup onto the target also fails, the operation returns
ReplaceFailed with the target absent, not holding its pre-call content; the
staged temp file is left in place. -/
theorem C3_counterexample :
    (atomic_database_replace
      { allOkAtomic with
          finalRen1 := false, finalRen2 := false, finalRen3 := false,
          finalRen4 := false, finalRen5 := false, restoreRenOk := false }
      [2] (fun q => if q = dbPath then some [1] else none)).fs dbPath ≠
      some [1]
    ∧ (atomic_database_replace
      { allOkAtomic with
          finalRen1 := false, finalRen2 := false, finalRen3 := false,
          finalRen4 := false, finalRen5 := false, restoreRenOk := false }
      [2] (fun q => if q = dbPath then some [1] else none)).fs tempPath =
      some [2] :=
  ⟨by decide, by decide⟩

/-- Claim C3, amended: on the fallback branch with an existing, vacated
target, when the final rename-into-place fails on all five attempts (with
backoff 1000 ms times the attempt number between them), the operation
returns ReplaceFailed, and the restore from the backup-of-target copy is
best-effort: if the restoring rename succeeds the target again holds its
pre-call byte-identical content, and if it fails the target is left
absent. -/
theorem C3_rollback_best_effort (e : AtomicEnv) (data old : Content) (fs : FS)
    (h : fs dbPath = some old) (hW : e.isWindows = false)
    (hT : e.writeTempOk = true) (hv : vacateSucceeds e = true)
    (h1 : e.finalRen1 = false) (h2 : e.finalRen2 = false)
    (h3 : e.finalRen3 = false) (h4 : e.finalRen4 = false)
    (h5 : e.finalRen5 = false) :
    (atomic_database_replace e data fs).res = .error (.moveTempFailed 5)
    ∧ (e.restoreRenOk = true →
        (atomic_database_replace e data fs).fs dbPath = some old)
    ∧ (e.restoreRenOk = false →
        (atomic_database_replace e data fs).fs dbPath = none)
    ∧ List.IsSuffix [1000, 2000, 3000, 4000]
        (atomic_database_replace e data fs).sleeps := by
  obtain ⟨fsV, tr, sl, heq, htV, hdV, hbV, htr⟩ :=
    (fallback_run_spec e data old fs hW hT h).1 hv
  have hloop : finalRenameLoop e fsV =
      (none, [fsV, fsV, fsV, fsV, fsV], [1000, 2000, 3000, 4000]) := by
    unfold finalRenameLoop
    simp [fsRenameOp, h1, h2, h3, h4, h5]
  rw [heq]
  unfold replaceFinish
  rw [hloop]
  dsimp only
  rw [hbV]
  refine ⟨rfl, ?_, ?_, ⟨sl, rfl⟩⟩
  · intro hr
    rw [hr]
    simp only [Option.isSome_some, Bool.true_and, if_true]
    rw [fsRename_dst]
    exact hbV
  · intro hr
    rw [hr]
    simp only [Bool.and_false, Bool.false_eq_true, if_false]
    exact hdV

/-- Witness for C3 (amended): with the restoring rename succeeding, the
concrete failed run ends with the pre-call content back at the target. -/
theorem C3_rollback_best_effort_witness :
    (atomic_database_replace
      { allOkAtomic with
          finalRen1 := false, finalRen2 := false, finalRen3 := false,
          finalRen4 := false, finalRen5 := false }
      [2] (fun q => if q = dbPath then some [1] else none)).fs dbPath =
      some [1] :=
  (C3_rollback_best_effort
    { allOkAtomic with
        finalRen1 := false, finalRen2 := false, finalRen3 := false,
        finalRen4 := false, finalRen5 := false }
    [2] [1] (fun q => if q = dbPath then some [1] else none)
    (by decide) rfl rfl rfl rfl rfl rfl rfl rfl).2.1 rfl

theorem wsfr_trace_head (e : WinEnv) (src tgt bak : String) (fs : FS) :
    ∃ t, (windows_safe_file_replace e src tgt bak fs).trace = fs :: t := by
  unfold windows_safe_file_replace
  rcases h0 : fs tgt with _ | c <;> dsimp only
  · rcases h1 : wsfrStrategies e src tgt fs with err | l <;> dsimp only
    · exact ⟨_, rfl⟩
    · split <;> exact ⟨_, rfl⟩
  · rcases h1 : fsCopyOp e.backupCopyOk tgt bak fs with _ | fs1 <;> dsimp only
    · exact ⟨_, rfl⟩
    · rcases h2 : wsfrStrategies e src tgt fs1 with err | l <;> dsimp only
      · exact ⟨_, rfl⟩
      · split <;> exact ⟨_, rfl⟩

theorem replaceFinish_trace_prefix (e : AtomicEnv) (fsV : FS) (tr : List FS)
    (sl : List Nat) :
    ∃ t, (replaceFinish e fsV tr sl).trace = tr ++ t := by
  unfold replaceFinish
  rcases h : finalRenameLoop e fsV with ⟨o, tr2, sl2⟩
  rcases o with _ | f <;> dsimp only <;>
    exact ⟨_, List.append_assoc ..⟩

theorem wsfr_copy_state_mem (e : WinEnv) (src tgt bak : String) (fs : FS)
    (c : Content) (hb : e.backupCopyOk = true) (h : fs tgt = some c) :
    fsCopy tgt bak fs ∈ (windows_safe_file_replace e src tgt bak fs).trace := by
  unfold windows_safe_file_replace
  rw [h]
  dsimp only
  have hc : fsCopyOp e.backupCopyOk tgt bak fs = some (fsCopy tgt bak fs) := by
    simp [fsCopyOp, hb, h]
  rw [hc]
  dsimp only
  rcases h1 : wsfrStrategies e src tgt (fsCopy tgt bak fs) with err | l <;>
    dsimp only
  · simp
  · split <;> simp

theorem replaceFinish_trace_eq (e : AtomicEnv) (fsV : FS) (tr : List FS)
    (sl : List Nat) :
    (replaceFinish e fsV tr sl).trace =
      tr ++ (finalRenameLoop e fsV).2.1 ++ [(replaceFinish e fsV tr sl).fs] := by
  unfold replaceFinish
  rcases h : finalRenameLoop e fsV with ⟨o, tr2, sl2⟩
  rcases o with _ | f <;> dsimp only <;> rfl

theorem atomic_trace_prefix (e : AtomicEnv) (data : Content) (fs : FS)
    (hT : e.writeTempOk = true) (c : Content) (h : fs dbPath = some c) :
    ∃ t, (atomic_database_replace e data fs).trace =
      fs :: fsWrite tempPath data fs :: t := by
  cases hW : e.isWindows
  · rw [atomic_fallback_eq e data fs hW hT c h]
    dsimp only
    split <;> split <;>
      first
        | (rw [replaceFinish_trace_eq]
           simp only [List.cons_append, List.nil_append, List.append_assoc]
           exact ⟨_, rfl⟩)
        | (dsimp only
           simp only [List.cons_append, List.nil_append, List.append_assoc]
           exact ⟨_, rfl⟩)
        | (split <;>
            first
              | (rw [replaceFinish_trace_eq]
                 simp only [List.cons_append, List.nil_append, List.append_assoc]
                 exact ⟨_, rfl⟩)
              | (dsimp only
                 simp only [List.cons_append, List.nil_append, List.append_assoc]
                 exact ⟨_, rfl⟩)
              | (split <;>
                  first
                    | (rw [replaceFinish_trace_eq]
                       simp only [List.cons_append, List.nil_append,
                         List.append_assoc]
                       exact ⟨_, rfl⟩)
                    | (dsimp only
                       simp only [List.cons_append, List.nil_append,
                         List.append_assoc]
                       exact ⟨_, rfl⟩)))
  · rw [atomic_windows_eq e data fs hW hT c h]
    dsimp only
    obtain ⟨t, ht⟩ := wsfr_trace_head e.win tempPath dbPath backupPath
      (fsWrite tempPath data fs)
    rcases hwres : (windows_safe_file_replace e.win tempPath dbPath backupPath
        (fsWrite tempPath data fs)).res with err | u <;> dsimp only <;>
      rw [ht] <;> exact ⟨t, rfl⟩


/-- Counterexample to claim C2, in two runs.  Fallback run (non-Windows,
everything permitted): the backup of the target receives the old content at
some instant, yet at no instant do the target and the backup hold the old
content simultaneously — so the target was moved, not "copied (not moved)",
to the backup path — and the target is absent at some instant even though
every rename was permitted, which a preferred single rename of the temp
onto the target would never produce.  Windows run (direct rename prevented,
copy permitted, source removals failing): the operation succeeds, yet no
instant has the target absent and the staged temp file still exists at the
end — so the swap neither removed the target nor renamed the temp into
place, contradicting the claimed remove-then-rename fallback. -/
theorem C2_counterexample :
    ((atomic_database_replace allOkAtomic [2]
        (fun q => if q = dbPath then some [1] else none)).res = .ok ()
      ∧ (∃ s ∈ (atomic_database_replace allOkAtomic [2]
          (fun q => if q = dbPath then some [1] else none)).trace,
          s backupPath = some [1])
      ∧ (¬ ∃ s ∈ (atomic_database_replace allOkAtomic [2]
          (fun q => if q = dbPath then some [1] else none)).trace,
          s dbPath = some [1] ∧ s backupPath = some [1])
      ∧ (∃ s ∈ (atomic_database_replace allOkAtomic [2]
          (fun q => if q = dbPath then some [1] else none)).trace,
          s dbPath = none))
    ∧ ((atomic_database_replace winCopyOverEnv [2]
        (fun q => if q = dbPath then some [1] else none)).res = .ok ()
      ∧ (∀ s ∈ (atomic_database_replace winCopyOverEnv [2]
          (fun q => if q = dbPath then some [1] else none)).trace,
          s dbPath ≠ none)
      ∧ (atomic_database_replace winCopyOverEnv [2]
          (fun q => if q = dbPath then some [1] else none)).fs tempPath =
          some [2]) :=
  ⟨⟨by decide, by decide, by decide, by decide⟩,
   by decide, by decide, by decide⟩

/-- Claim C2, amended: for calls with an existing target, (1) the new
content is first fully staged in the temp file beside the target — the
first two observable states are the initial one and the staged one — and a
failed staging write aborts with nothing changed.  On the Windows branch:
(2) the target is copied (not moved) to the backup path — target and backup
observably coexist; (3) a failed backup copy aborts with the target
untouched; (4) the swap prefers a single rename of the temp onto the
target, and when that is prevented it copies the temp over the target —
succeeding with the target never absent (no removal, no rename of the temp
into place ever happens on that path).  On the non-Windows fallback branch:
(5) the target is first moved (not copied) to the backup path, observably
vacating the target; (6) when all three move attempts fail — sleeping
500 ms times the attempt number between them — and the backup copy also
fails, the operation returns ReplaceFailed with the target and the staged
temp untouched; (7) when the backup copy succeeds but all five removal
attempts fail — sleeping 1000 ms times the attempt number between them —
the operation returns ReplaceFailed without touching the temp file. -/
theorem C2_replace_steps_amended (e : AtomicEnv) (data old : Content)
    (fs : FS) (h : fs dbPath = some old) :
    (e.writeTempOk = true →
      (atomic_database_replace e data fs).trace[0]? = some fs
      ∧ (atomic_database_replace e data fs).trace[1]? =
          some (fsWrite tempPath data fs))
    ∧ (e.writeTempOk = false →
        (atomic_database_replace e data fs).res = .error .writeTempFailed
        ∧ (atomic_database_replace e data fs).fs = fs)
    ∧ (e.isWindows = true → e.writeTempOk = true → e.win.backupCopyOk = true →
        ∃ s ∈ (atomic_database_replace e data fs).trace,
          s dbPath = some old ∧ s backupPath = some old)
    ∧ (e.isWindows = true → e.writeTempOk = true →
        e.win.backupCopyOk = false →
        (atomic_database_replace e data fs).res =
          .error (.productionReplaceFailed .backupFailed)
        ∧ (atomic_database_replace e data fs).fs dbPath = some old)
    ∧ (e.isWindows = true → e.writeTempOk = true → e.win.backupCopyOk = true →
        e.win.renameOk = false → e.win.copyOk = true →
        (atomic_database_replace e data fs).res = .ok ()
        ∧ (atomic_database_replace e data fs).fs dbPath = some data
        ∧ ∀ s ∈ (atomic_database_replace e data fs).trace, s dbPath ≠ none)
    ∧ (e.isWindows = false → e.writeTempOk = true → e.renBak1 = true →
        ∃ s ∈ (atomic_database_replace e data fs).trace,
          s dbPath = none ∧ s backupPath = some old)
    ∧ (e.isWindows = false → e.writeTempOk = true → e.renBak1 = false →
        e.renBak2 = false → e.renBak3 = false → e.copyBakOk = false →
        (atomic_database_replace e data fs).res = .error .backupCopyFailed
        ∧ (atomic_database_replace e data fs).fs dbPath = some old
        ∧ (atomic_database_replace e data fs).fs tempPath = some data
        ∧ (atomic_database_replace e data fs).sleeps = [500, 1000])
    ∧ (e.isWindows = false → e.writeTempOk = true → e.renBak1 = false →
        e.renBak2 = false → e.renBak3 = false → e.copyBakOk = true →
        e.removeDb1 = false → e.removeDb2 = false → e.removeDb3 = false →
        e.removeDb4 = false → e.removeDb5 = false →
        (atomic_database_replace e data fs).res = .error .removeOldFailed
        ∧ (atomic_database_replace e data fs).fs dbPath = some old
        ∧ (atomic_database_replace e data fs).fs tempPath = some data
        ∧ (atomic_database_replace e data fs).sleeps =
            [500, 1000, 1000, 2000, 3000, 4000]) := by
  have hfs1d : fsWrite tempPath data fs dbPath = some old := by
    rw [fsWrite_other _ _ _ _ dbPath_ne_tempPath]; exact h
  have hfs1t : fsWrite tempPath data fs tempPath = some data := fsWrite_self ..
  refine ⟨?_, ?_, ?_, ?_, ?_, ?_, ?_, ?_⟩
  · -- (1) staging happens first
    intro hT
    obtain ⟨t, ht⟩ := atomic_trace_prefix e data fs hT old h
    rw [ht]
    exact ⟨by simp, by simp⟩
  · -- (1b) failed staging aborts untouched
    intro hT
    have hrun : atomic_database_replace e data fs =
        ⟨.error .writeTempFailed, fs, [fs, fs], []⟩ := by
      unfold atomic_database_replace
      rw [if_pos (by simp [hT])]
    rw [hrun]
    exact ⟨rfl, rfl⟩
  · -- (2) Windows backup is a copy: coexistence instant
    intro hWin hT hbca
    rw [atomic_windows_eq e data fs hWin hT old h]
    dsimp only
    have hmem := wsfr_copy_state_mem e.win tempPath dbPath backupPath
      (fsWrite tempPath data fs) old hbca hfs1d
    have hco1 : fsCopy dbPath backupPath (fsWrite tempPath data fs) dbPath =
        some old := by
      rw [fsCopy_other _ _ _ _ dbPath_ne_backupPath]; exact hfs1d
    have hco2 : fsCopy dbPath backupPath (fsWrite tempPath data fs) backupPath =
        some old := by
      rw [fsCopy_dst]; exact hfs1d
    rcases hwres : (windows_safe_file_replace e.win tempPath dbPath backupPath
        (fsWrite tempPath data fs)).res with err | u <;> dsimp only <;>
      exact ⟨fsCopy dbPath backupPath (fsWrite tempPath data fs),
        List.mem_cons_of_mem _ hmem, hco1, hco2⟩
  · -- (3) Windows failed backup copy aborts with target untouched
    intro hWin hT hbca
    have hw : windows_safe_file_replace e.win tempPath dbPath backupPath
        (fsWrite tempPath data fs) =
        ⟨.error .backupFailed, fsWrite tempPath data fs,
          [fsWrite tempPath data fs, fsWrite tempPath data fs], []⟩ := by
      unfold windows_safe_file_replace
      rw [hfs1d]
      dsimp only
      have hc : fsCopyOp e.win.backupCopyOk dbPath backupPath
          (fsWrite tempPath data fs) = none := by
        simp [fsCopyOp, hbca]
      rw [hc]
    rw [atomic_windows_eq e data fs hWin hT old h]
    dsimp only
    rw [hw]
    exact ⟨rfl, hfs1d⟩
  · -- (4) Windows: rename prevented, swap by copy-over, target never absent
    intro hWin hT hbca hren hcopy
    rw [atomic_windows_eq e data fs hWin hT old h]
    dsimp only
    cases r1 : e.win.removeSrc1 <;> cases r2 : e.win.removeSrc2 <;>
    cases r3 : e.win.removeSrc3 <;>
      simp [windows_safe_file_replace, wsfrStrategies, winRemoveSrcLoop,
        fsRenameOp, fsCopyOp, fsRemoveOp, fsWrite, fsCopy, fsRemove, h,
        hbca, hren, hcopy, r1, r2, r3, dbPath_ne_tempPath,
        dbPath_ne_backupPath, tempPath_ne_backupPath, tempPath_ne_dbPath,
        backupPath_ne_dbPath, backupPath_ne_tempPath]
  · -- (5) fallback: the target is moved to the backup path, vacating it
    intro hWin hT hb1
    rw [atomic_fallback_eq e data fs hWin hT old h]
    dsimp only
    split
    case isTrue hcond =>
      have hfs2d : fsRemove backupPath (fsWrite tempPath data fs) dbPath =
          some old := by
        rw [fsRemove_other _ _ _ dbPath_ne_backupPath]; exact hfs1d
      have hl1 : renameDbLoop e (fsRemove backupPath (fsWrite tempPath data fs)) =
          ⟨true, fsRename dbPath backupPath
              (fsRemove backupPath (fsWrite tempPath data fs)),
            [fsRename dbPath backupPath
              (fsRemove backupPath (fsWrite tempPath data fs))], []⟩ := by
        unfold renameDbLoop
        simp [fsRenameOp, hb1, hfs2d]
      rw [hl1]
      dsimp only
      rw [if_pos rfl, replaceFinish_trace_eq]
      refine ⟨fsRename dbPath backupPath
          (fsRemove backupPath (fsWrite tempPath data fs)), ?_, ?_, ?_⟩
      · simp
      · rw [fsRename_src _ _ _ dbPath_ne_backupPath]
      · rw [fsRename_dst]; exact hfs2d
    case isFalse hcond =>
      have hl1 : renameDbLoop e (fsWrite tempPath data fs) =
          ⟨true, fsRename dbPath backupPath (fsWrite tempPath data fs),
            [fsRename dbPath backupPath (fsWrite tempPath data fs)], []⟩ := by
        unfold renameDbLoop
        simp [fsRenameOp, hb1, hfs1d]
      rw [hl1]
      dsimp only
      rw [if_pos rfl, replaceFinish_trace_eq]
      refine ⟨fsRename dbPath backupPath (fsWrite tempPath data fs), ?_, ?_, ?_⟩
      · simp
      · rw [fsRename_src _ _ _ dbPath_ne_backupPath]
      · rw [fsRename_dst]; exact hfs1d
  · -- (6) fallback: every move attempt and the backup copy fail
    intro hWin hT hb1 hb2 hb3 hcb
    rw [atomic_fallback_eq e data fs hWin hT old h]
    dsimp only
    split <;>
      first
      | (rename_i hcond
         have hl1 : renameDbLoop e
             (fsRemove backupPath (fsWrite tempPath data fs)) =
             ⟨false, fsRemove backupPath (fsWrite tempPath data fs),
               [fsRemove backupPath (fsWrite tempPath data fs),
                fsRemove backupPath (fsWrite tempPath data fs),
                fsRemove backupPath (fsWrite tempPath data fs)],
               [500, 1000]⟩ := by
           unfold renameDbLoop
           simp [fsRenameOp, hb1, hb2, hb3]
         rw [hl1]
         dsimp only
         rw [if_neg (by simp)]
         have hc : fsCopyOp e.copyBakOk dbPath backupPath
             (fsRemove backupPath (fsWrite tempPath data fs)) = none := by
           simp [fsCopyOp, hcb]
         rw [hc]
         dsimp only
         refine ⟨rfl, ?_, ?_, rfl⟩
         · rw [fsRemove_other _ _ _ dbPath_ne_backupPath]; exact hfs1d
         · rw [fsRemove_other _ _ _ tempPath_ne_backupPath]; exact hfs1t)
      | (rename_i hcond
         have hl1 : renameDbLoop e (fsWrite tempPath data fs) =
             ⟨false, fsWrite tempPath data fs,
               [fsWrite tempPath data fs, fsWrite tempPath data fs,
                fsWrite tempPath data fs], [500, 1000]⟩ := by
           unfold renameDbLoop
           simp [fsRenameOp, hb1, hb2, hb3]
         rw [hl1]
         dsimp only
         rw [if_neg (by simp)]
         have hc : fsCopyOp e.copyBakOk dbPath backupPath
             (fsWrite tempPath data fs) = none := by
           simp [fsCopyOp, hcb]
         rw [hc]
         dsimp only
         exact ⟨rfl, hfs1d, hfs1t, rfl⟩)
  · -- (7) fallback: removal never succeeds, the temp is untouched
    intro hWin hT hb1 hb2 hb3 hcb hr1 hr2 hr3 hr4 hr5
    rw [atomic_fallback_eq e data fs hWin hT old h]
    dsimp only
    split
    case isTrue hcond =>
      have hfs2d : fsRemove backupPath (fsWrite tempPath data fs) dbPath =
          some old := by
        rw [fsRemove_other _ _ _ dbPath_ne_backupPath]; exact hfs1d
      have hfs2t : fsRemove backupPath (fsWrite tempPath data fs) tempPath =
          some data := by
        rw [fsRemove_other _ _ _ tempPath_ne_backupPath]; exact hfs1t
      have hl1 : renameDbLoop e
          (fsRemove backupPath (fsWrite tempPath data fs)) =
          ⟨false, fsRemove backupPath (fsWrite tempPath data fs),
            [fsRemove backupPath (fsWrite tempPath data fs),
             fsRemove backupPath (fsWrite tempPath data fs),
             fsRemove backupPath (fsWrite tempPath data fs)],
            [500, 1000]⟩ := by
        unfold renameDbLoop
        simp [fsRenameOp, hb1, hb2, hb3]
      rw [hl1]
      dsimp only
      rw [if_neg (by simp)]
      have hc : fsCopyOp e.copyBakOk dbPath backupPath
          (fsRemove backupPath (fsWrite tempPath data fs)) =
          some (fsCopy dbPath backupPath
            (fsRemove backupPath (fsWrite tempPath data fs))) := by
        simp [fsCopyOp, hcb, hfs2d]
      rw [hc]
      dsimp only
      have hl2 : removeDbLoop e (fsCopy dbPath backupPath
          (fsRemove backupPath (fsWrite tempPath data fs))) =
          ⟨false, fsCopy dbPath backupPath
              (fsRemove backupPath (fsWrite tempPath data fs)),
            List.replicate 5 (fsCopy dbPath backupPath
              (fsRemove backupPath (fsWrite tempPath data fs))),
            [1000, 2000, 3000, 4000]⟩ := by
        unfold removeDbLoop
        simp [fsRemoveOp, hr1, hr2, hr3, hr4, hr5, List.replicate]
      rw [hl2]
      dsimp only
      rw [if_neg (by simp)]
      refine ⟨rfl, ?_, ?_, rfl⟩
      · dsimp only
        rw [fsCopy_other _ _ _ _ dbPath_ne_backupPath]; exact hfs2d
      · dsimp only
        rw [fsCopy_other _ _ _ _ tempPath_ne_backupPath]; exact hfs2t
    case isFalse hcond =>
      have hl1 : renameDbLoop e (fsWrite tempPath data fs) =
          ⟨false, fsWrite tempPath data fs,
            [fsWrite tempPath data fs, fsWrite tempPath data fs,
             fsWrite tempPath data fs], [500, 1000]⟩ := by
        unfold renameDbLoop
        simp [fsRenameOp, hb1, hb2, hb3]
      rw [hl1]
      dsimp only
      rw [if_neg (by simp)]
      have hc : fsCopyOp e.copyBakOk dbPath backupPath
          (fsWrite tempPath data fs) =
          some (fsCopy dbPath backupPath (fsWrite tempPath data fs)) := by
        simp [fsCopyOp, hcb, hfs1d]
      rw [hc]
      dsimp only
      have hl2 : removeDbLoop e (fsCopy dbPath backupPath
          (fsWrite tempPath data fs)) =
          ⟨false, fsCopy dbPath backupPath (fsWrite tempPath data fs),
            List.replicate 5 (fsCopy dbPath backupPath
              (fsWrite tempPath data fs)),
            [1000, 2000, 3000, 4000]⟩ := by
        unfold removeDbLoop
        simp [fsRemoveOp, hr1, hr2, hr3, hr4, hr5, List.replicate]
      rw [hl2]
      dsimp only
      rw [if_neg (by simp)]
      refine ⟨rfl, ?_, ?_, rfl⟩
      · dsimp only
        rw [fsCopy_other _ _ _ _ dbPath_ne_backupPath]; exact hfs1d
      · dsimp only
        rw [fsCopy_other _ _ _ _ tempPath_ne_backupPath]; exact hfs1t

theorem C2_replace_steps_amended_witness :
    (atomic_database_replace allOkAtomic [2]
      (fun q => if q = dbPath then some [1] else none)).trace[1]? =
      some (fsWrite tempPath [2]
        (fun q => if q = dbPath then some [1] else none)) :=
  ((C2_replace_steps_amended allOkAtomic [2] [1]
    (fun q => if q = dbPath then some [1] else none) (by decide)).1 rfl).2
end SteelSync
